import Mathlib

/-!
Verification of the QA Companion recording-session core.

The development shallowly embeds the session orchestration layer of the
extension: the session registry and its status machine, the request/response
correlation table, the telemetry buffer/flush pipeline with its single-flight
guard, the timestamp synchronization arithmetic, and the batch storage layer
(`src/entrypoints/background.ts`, `src/lib/storage.ts`).

Modelling conventions:
- JS `Map` objects become association lists with `Map.set`/`Map.get`/
  `Map.delete` semantics (`mset`/`mget`/`mdel` below).
- JS numbers that hold millisecond wall-clock readings or counters become
  `Int`/`Nat`; CDP timestamps, which carry fractional seconds, become `Rat`.
- Handlers that read `Date.now()` take the reading as an explicit `now`
  argument.
- External collaborators (the blob store, tab capture, message sends, CDP
  attach/detach) are modelled at their boundary as succeeding; their failure
  modes are outside the core under verification.
-/

/-- JS `Map.get(k)`: the binding for the key, if any. -/
def mget {κ α : Type} [DecidableEq κ] (m : List (κ × α)) (k : κ) : Option α :=
  match m with
  | [] => none
  | (k', v) :: rest => if k' = k then some v else mget rest k

/-- JS `Map.set(k, v)`: replace the binding in place if the key exists, else append. -/
def mset {κ α : Type} [DecidableEq κ] (m : List (κ × α)) (k : κ) (v : α) : List (κ × α) :=
  match m with
  | [] => [(k, v)]
  | (k', v') :: rest => if k' = k then (k, v) :: rest else (k', v') :: mset rest k v

/-- JS `Map.delete(k)`: remove the binding for the key. -/
def mdel {κ α : Type} [DecidableEq κ] (m : List (κ × α)) (k : κ) : List (κ × α) :=
  match m with
  | [] => []
  | (k', v) :: rest => if k' = k then mdel rest k else (k', v) :: mdel rest k

theorem mget_mset_self {κ α : Type} [DecidableEq κ] (m : List (κ × α)) (k : κ) (v : α) :
    mget (mset m k v) k = some v := by
  induction m with
  | nil => simp [mget, mset]
  | cons p rest ih =>
    by_cases h : p.1 = k
    · simp [mget, mset, h]
    · simp [mget, mset, h, ih]

theorem mget_mset_ne {κ α : Type} [DecidableEq κ] (m : List (κ × α)) (k k' : κ) (v : α)
    (h : k' ≠ k) : mget (mset m k v) k' = mget m k' := by
  induction m with
  | nil => simp [mget, mset, Ne.symm h]
  | cons p rest ih =>
    by_cases hp : p.1 = k
    · subst hp
      simp [mget, mset, Ne.symm h]
    · simp only [mset, if_neg hp]
      by_cases hp' : p.1 = k'
      · simp [mget, hp']
      · simp [mget, hp', ih]

theorem mget_mdel_self {κ α : Type} [DecidableEq κ] (m : List (κ × α)) (k : κ) :
    mget (mdel m k) k = none := by
  induction m with
  | nil => simp [mget, mdel]
  | cons p rest ih =>
    by_cases h : p.1 = k
    · simpa [mdel, h] using ih
    · simpa [mdel, mget, h] using ih

theorem mget_mdel_ne {κ α : Type} [DecidableEq κ] (m : List (κ × α)) (k k' : κ)
    (h : k' ≠ k) : mget (mdel m k) k' = mget m k' := by
  induction m with
  | nil => simp [mget, mdel]
  | cons p rest ih =>
    by_cases hp : p.1 = k
    · simpa [mdel, mget, hp, Ne.symm h] using ih
    · by_cases hp' : p.1 = k'
      · simp [mdel, mget, hp, hp', h]
      · simpa [mdel, mget, hp, hp'] using ih

/-! ## Timestamp synchronization (`src/lib/sync.ts`)

`background.ts` imports `calculateVideoTimestamp` and `cdpWallTimeToVideoOffset`
from `lib/sync.ts`, which is not present in the source tree; the two functions
are modelled from the spec (§4.4). -/

/-- Modelled from the spec: `lib/sync.ts` is absent from the source tree.
§4.4: `videoOffset(eventWallClockMs) = eventWallClockMs - T0`; the synchronizer
never clamps. Argument order follows the call sites in `background.ts`
(`calculateVideoTimestamp(session.sessionStartTime, wallTime)`). -/
def calculateVideoTimestamp (sessionStartTime : Int) (wallClockMs : Int) : Int :=
  wallClockMs - sessionStartTime

/-- Modelled from the spec: `lib/sync.ts` is absent from the source tree.
§4.4: for sources reporting wall clock in fractional seconds,
`videoOffset = round(eventWallClockSeconds * 1000) - T0`; never clamped. -/
def cdpWallTimeToVideoOffset (wallTimeSeconds : Rat) (sessionStartTime : Int) : Int :=
  round (wallTimeSeconds * 1000) - sessionStartTime

/-! ## Session data model (`src/types/session.ts`) -/

/-- `SessionState.status` values (types/session.ts). -/
inductive SessionStatus : Type
  | idle
  | recording
  | stopping
  | completed
  | error
deriving DecidableEq

/-- `SessionState` (types/session.ts). -/
structure SessionState : Type where
  sessionId : String
  tabId : Int
  status : SessionStatus
  sessionStartTime : Int
  sessionStopTime : Option Int := none
  includeAudio : Bool := false
  includeMicrophone : Bool := false
  recordingChunkCount : Nat := 0
  screenshotCount : Nat := 0
  networkEventCount : Nat := 0
  consoleEventCount : Nat := 0
  domEventCount : Nat := 0
  debuggerAttached : Bool := false
  offscreenDocumentActive : Bool := true
  lastError : Option String := none
  errorRecoverable : Option Bool := none
deriving DecidableEq

/-- A completed `NetworkEvent` (types/telemetry.ts, as constructed in
background.ts). `responseHeaders`/`mimeType` are absent on load-failed events. -/
structure NetworkEvent : Type where
  requestId : String
  url : String
  method : String
  headers : List (String × String)
  postData : Option String
  timestamp : Rat
  wallTime : Rat
  videoTimestamp : Int
  status : Int
  statusText : String
  responseHeaders : Option (List (String × String)) := none
  mimeType : Option String := none
deriving DecidableEq

/-- `Partial<NetworkEvent>` as stored in `pendingNetworkRequests`. -/
structure PartialNetworkEvent : Type where
  requestId : Option String := none
  url : Option String := none
  method : Option String := none
  headers : Option (List (String × String)) := none
  postData : Option String := none
  timestamp : Option Rat := none
  wallTime : Option Rat := none
  videoTimestamp : Option Int := none
deriving DecidableEq

/-- A console event (types/telemetry.ts); the argument payloads and stack
traces carried by the source type do not affect any claim and are kept as the
pre-joined display text. -/
structure ConsoleEvent : Type where
  level : String
  text : String
  timestamp : Rat
  wallTime : Int
  videoTimestamp : Int
deriving DecidableEq

/-- A DOM interaction event (types/telemetry.ts, metadata elided). -/
structure DOMEvent : Type where
  eventType : String
  selector : String
  timestamp : Int
  videoTimestamp : Int
deriving DecidableEq

/-! ## CDP event parameters (`src/types/cdp.ts`) -/

/-- `Network.requestWillBeSent` parameters (the fields background.ts reads). -/
structure RequestWillBeSentParams : Type where
  requestId : String
  url : String
  method : String
  headers : List (String × String)
  postData : Option String := none
  timestamp : Rat
  wallTime : Rat
deriving DecidableEq

/-- CDP resource types distinguished by the filter in `handleNetworkResponse`. -/
inductive ResourceKind : Type
  | XHR
  | Fetch
  | WebSocket
  | Document
  | Image
  | Stylesheet
  | Font
  | Media
  | Script
  | Other
deriving DecidableEq

/-- `Network.responseReceived` parameters (the fields background.ts reads). -/
structure ResponseReceivedParams : Type where
  requestId : String
  timestamp : Rat
  kind : ResourceKind
  status : Int
  statusText : String
  responseHeaders : List (String × String)
  mimeType : String
deriving DecidableEq

/-- `Network.loadingFailed` parameters (the fields background.ts reads). -/
structure LoadingFailedParams : Type where
  requestId : String
  timestamp : Rat
  errorText : String
deriving DecidableEq

/-- `Runtime.consoleAPICalled` parameters; argument stringification (the
`args.map(...).join(' ')` step) is abstracted as the resulting text. -/
structure ConsoleAPICalledParams : Type where
  kind : String
  argsText : String
  timestamp : Rat
deriving DecidableEq

/-- The `stage` field of a MEDIA_ERROR payload. -/
inductive MediaStage : Type
  | init
  | recording
  | stopping
deriving DecidableEq

/-! ## JS truthiness helpers -/

/-- Truthiness of an optional JS string: `undefined` and `""` are falsy. -/
def jsTruthyStr (s : Option String) : Bool :=
  match s with
  | some v => decide (v ≠ "")
  | none => false

/-- JS `a || b` for an optional number `a`: `undefined` and `0` fall through. -/
def jsOrQ (a : Option Rat) (b : Rat) : Rat :=
  match a with
  | some v => if v = 0 then b else v
  | none => b

/-- JS `a || b` for an optional integer `a`: `undefined` and `0` fall through. -/
def jsOrZ (a : Option Int) (b : Int) : Int :=
  match a with
  | some v => if v = 0 then b else v
  | none => b

/-- `SENSITIVE_HEADERS` (background.ts:67-74). -/
def SENSITIVE_HEADERS : List String :=
  ["authorization", "cookie", "set-cookie", "proxy-authorization", "x-api-key", "x-auth-token"]

/-- `sanitizeHeaders` (background.ts:83-93). -/
def sanitizeHeaders (headers : List (String × String)) : List (String × String) :=
  headers.map (fun p => if p.1.toLower ∈ SENSITIVE_HEADERS then (p.1, "[REDACTED]") else p)

/-! ## Background service-worker state (`src/entrypoints/background.ts`)

The module-level `Map`s of the background script become one state record.
Batch storage keys `sessionId:network:batch:i` are carried here as
`(sessionId, i)` pairs per channel; the flat-string key layer itself is
modelled (and related to index order) in the storage section below.
`flushTimers` keeps the set of session ids whose periodic interval timer is
armed. -/

structure BgState : Type where
  sessions : List (String × SessionState) := []
  networkEventBuffers : List (String × List NetworkEvent) := []
  consoleEventBuffers : List (String × List ConsoleEvent) := []
  domEventBuffers : List (String × List DOMEvent) := []
  pendingNetworkRequests : List (String × List (String × PartialNetworkEvent)) := []
  flushTimers : List String := []
  networkBatchIndices : List (String × Nat) := []
  consoleBatchIndices : List (String × Nat) := []
  domBatchIndices : List (String × Nat) := []
  tabIdToSessionId : List (Int × String) := []
  networkStore : List ((String × Nat) × List NetworkEvent) := []
  consoleStore : List ((String × Nat) × List ConsoleEvent) := []
  domStore : List ((String × Nat) × List DOMEvent) := []
deriving DecidableEq

/-- The empty initial state of the service worker. -/
def bgInit : BgState := {}

/-- `sessionId = `${payload.tabId}-${sessionStartTime}`` (background.ts:173). -/
def mkSessionId (tabId : Int) (sessionStartTime : Int) : String :=
  toString tabId ++ "-" ++ toString sessionStartTime

/-- `flushTelemetryBuffers` / `doFlushTelemetryBuffers`
(background.ts:1293-1390), sequential view: under the single-flight guard the
buffer swap, batch writes, index increments and TTL sweep of one flush never
interleave with those of another flush, and none of them touches the session
registry, so the whole flush is one step here.  The interleaved suspension
points are treated explicitly in the `Flush` section below.  `now` is the
`Date.now()` reading of the TTL sweep. -/
def flushTelemetryBuffers (st : BgState) (sessionId : String) (now : Int) : BgState :=
  -- atomically extract events from buffers (splice)
  let networkToFlush := (mget st.networkEventBuffers sessionId).getD []
  let consoleToFlush := (mget st.consoleEventBuffers sessionId).getD []
  let domToFlush := (mget st.domEventBuffers sessionId).getD []
  let st := { st with
    networkEventBuffers :=
      match mget st.networkEventBuffers sessionId with
      | none => st.networkEventBuffers
      | some _ => mset st.networkEventBuffers sessionId [],
    consoleEventBuffers :=
      match mget st.consoleEventBuffers sessionId with
      | none => st.consoleEventBuffers
      | some _ => mset st.consoleEventBuffers sessionId [],
    domEventBuffers :=
      match mget st.domEventBuffers sessionId with
      | none => st.domEventBuffers
      | some _ => mset st.domEventBuffers sessionId [] }
  -- flush network events to batch storage
  let st :=
    if networkToFlush ≠ [] then
      let batchIndex := (mget st.networkBatchIndices sessionId).getD 0
      { st with
        networkStore := mset st.networkStore (sessionId, batchIndex) networkToFlush,
        networkBatchIndices := mset st.networkBatchIndices sessionId (batchIndex + 1) }
    else st
  -- flush console events to batch storage
  let st :=
    if consoleToFlush ≠ [] then
      let batchIndex := (mget st.consoleBatchIndices sessionId).getD 0
      { st with
        consoleStore := mset st.consoleStore (sessionId, batchIndex) consoleToFlush,
        consoleBatchIndices := mset st.consoleBatchIndices sessionId (batchIndex + 1) }
    else st
  -- flush DOM events to batch storage
  let st :=
    if domToFlush ≠ [] then
      let batchIndex := (mget st.domBatchIndices sessionId).getD 0
      { st with
        domStore := mset st.domStore (sessionId, batchIndex) domToFlush,
        domBatchIndices := mset st.domBatchIndices sessionId (batchIndex + 1) }
    else st
  -- TTL cleanup for pendingNetworkRequests (2 minute TTL, background.ts:1374-1385)
  match mget st.pendingNetworkRequests sessionId with
  | none => st
  | some pendingMap =>
    { st with pendingNetworkRequests := (mset st.pendingNetworkRequests sessionId
        (pendingMap.filter (fun p =>
          decide (¬ ((now : Rat) - (p.2.wallTime.getD 0) * 1000 > 120000))))) }

/-- Result envelope of `handleStartRecording`. -/
structure StartResult : Type where
  success : Bool
  sessionId : Option String := none
deriving DecidableEq

/-- `handleStartRecording` (background.ts:163-240).  `now` is the `Date.now()`
reading captured as T₀; `cdpAttachOk` is whether the non-blocking
`chrome.debugger` attach succeeded; the tab-capture, offscreen-document and
message-send collaborators are modelled as succeeding. -/
def handleStartRecording (st : BgState) (tabId : Int) (now : Int)
    (includeAudio includeMicrophone cdpAttachOk : Bool) : BgState × StartResult :=
  let sessionId := mkSessionId tabId now
  let sessionState : SessionState := {
    sessionId := sessionId
    tabId := tabId
    status := .idle
    sessionStartTime := now
    includeAudio := includeAudio
    includeMicrophone := includeMicrophone
    debuggerAttached := cdpAttachOk
    offscreenDocumentActive := true }
  ({ st with
      sessions := mset st.sessions sessionId sessionState,
      tabIdToSessionId := mset st.tabIdToSessionId tabId sessionId },
   { success := true, sessionId := some sessionId })

/-- `handleMediaReady` (background.ts:398-466): sets the session status to
`recording` whenever the session exists, and (when the debugger attached)
initializes telemetry buffers, the pending table, batch indices, and arms the
periodic flush timer. -/
def handleMediaReady (st : BgState) (sessionId : String) : BgState :=
  match mget st.sessions sessionId with
  | none => st
  | some session =>
    let st := { st with
      sessions := mset st.sessions sessionId { session with status := .recording } }
    if session.debuggerAttached then
      { st with
        networkEventBuffers := mset st.networkEventBuffers sessionId [],
        consoleEventBuffers := mset st.consoleEventBuffers sessionId [],
        domEventBuffers := mset st.domEventBuffers sessionId [],
        pendingNetworkRequests := mset st.pendingNetworkRequests sessionId [],
        networkBatchIndices := mset st.networkBatchIndices sessionId 0,
        consoleBatchIndices := mset st.consoleBatchIndices sessionId 0,
        domBatchIndices := mset st.domBatchIndices sessionId 0,
        flushTimers :=
          (if sessionId ∈ st.flushTimers then st.flushTimers
           else sessionId :: st.flushTimers) }
    else st

/-- Result envelope of `handleStopRecording`. -/
structure StopResult : Type where
  success : Bool
deriving DecidableEq

/-- `Array.from(sessions.values()).find(s => s.tabId === tabId && s.status === 'recording')`
(background.ts:253-255). -/
def findRecordingSession (sessions : List (String × SessionState)) (tabId : Int) :
    Option SessionState :=
  (sessions.map Prod.snd).find?
    (fun s => decide (s.tabId = tabId) && decide (s.status = .recording))

/-- `handleStopRecording` (background.ts:245-297): only a session in status
`recording` for the tab is moved to `stopping`; otherwise the handler fails. -/
def handleStopRecording (st : BgState) (tabId : Int) (now : Int) : BgState × StopResult :=
  match findRecordingSession st.sessions tabId with
  | none => (st, { success := false })
  | some session =>
    ({ st with sessions := (mset st.sessions session.sessionId
        { session with status := .stopping, sessionStopTime := some now }) },
     { success := true })

/-- `handleMediaStopped` (background.ts:556-677), sequential/atomic view: the
periodic timer is disarmed, one final flush runs, CDP detaches, buffers /
pending table / batch indices / reverse index are deleted, and the status
becomes `completed`.  The interleaved stop path is treated in the `Flush`
section below. -/
def handleMediaStopped (st : BgState) (sessionId : String) (now : Int) : BgState :=
  match mget st.sessions sessionId with
  | none => st
  | some session =>
    let st := { st with flushTimers := st.flushTimers.erase sessionId }
    let st := flushTelemetryBuffers st sessionId now
    let st := { st with
      networkEventBuffers := mdel st.networkEventBuffers sessionId,
      consoleEventBuffers := mdel st.consoleEventBuffers sessionId,
      domEventBuffers := mdel st.domEventBuffers sessionId,
      pendingNetworkRequests := mdel st.pendingNetworkRequests sessionId,
      networkBatchIndices := mdel st.networkBatchIndices sessionId,
      consoleBatchIndices := mdel st.consoleBatchIndices sessionId,
      domBatchIndices := mdel st.domBatchIndices sessionId,
      tabIdToSessionId := mdel st.tabIdToSessionId session.tabId }
    { st with sessions := (mset st.sessions sessionId
        { session with
          status := .completed
          debuggerAttached := false
          offscreenDocumentActive := false }) }

/-- `handleMediaError` (background.ts:682-756): status becomes `error`,
`errorRecoverable` is false exactly for `init`-stage failures; for
`recording`/`stopping` failures with the debugger attached the timer is
disarmed, a final flush runs and telemetry state is torn down. -/
def handleMediaError (st : BgState) (sessionId : String) (errorText : String)
    (stage : MediaStage) (now : Int) : BgState :=
  match mget st.sessions sessionId with
  | none => st
  | some session =>
    let recoverable := decide (stage ≠ .init)
    if session.debuggerAttached ∧ (stage = .recording ∨ stage = .stopping) then
      let st := { st with flushTimers := st.flushTimers.erase sessionId }
      let st := flushTelemetryBuffers st sessionId now
      { st with
        sessions := (mset st.sessions sessionId
          { session with
            status := .error
            lastError := some errorText
            errorRecoverable := some recoverable
            debuggerAttached := false }),
        networkEventBuffers := mdel st.networkEventBuffers sessionId,
        consoleEventBuffers := mdel st.consoleEventBuffers sessionId,
        domEventBuffers := mdel st.domEventBuffers sessionId,
        pendingNetworkRequests := mdel st.pendingNetworkRequests sessionId,
        networkBatchIndices := mdel st.networkBatchIndices sessionId,
        consoleBatchIndices := mdel st.consoleBatchIndices sessionId,
        domBatchIndices := mdel st.domBatchIndices sessionId,
        tabIdToSessionId := mdel st.tabIdToSessionId session.tabId }
    else
      { st with
        sessions := (mset st.sessions sessionId
          { session with
            status := .error
            lastError := some errorText
            errorRecoverable := some recoverable
            offscreenDocumentActive :=
              (if stage = .init then false else session.offscreenDocumentActive) }) }

/-- `handleNetworkRequestWillBeSent` (background.ts:788-822). -/
def handleNetworkRequestWillBeSent (st : BgState) (tabId : Int)
    (params : RequestWillBeSentParams) : BgState :=
  match mget st.tabIdToSessionId tabId with
  | none => st
  | some sessionId =>
  match mget st.sessions sessionId with
  | none => st
  | some session =>
  if session.status ≠ .recording then st
  else
  match mget st.pendingNetworkRequests sessionId with
  | none => st
  | some pendingRequests =>
    let partialEvent : PartialNetworkEvent := {
      requestId := some params.requestId
      url := some params.url
      method := some params.method
      headers := some (sanitizeHeaders params.headers)
      postData := params.postData
      timestamp := some params.timestamp
      wallTime := some params.wallTime
      videoTimestamp :=
        (some (cdpWallTimeToVideoOffset params.wallTime session.sessionStartTime)) }
    { st with pendingNetworkRequests := (mset st.pendingNetworkRequests sessionId
        (mset pendingRequests params.requestId partialEvent)) }

/-- The retention filter of `handleNetworkResponse` (background.ts:877-884):
`XHR || Fetch || WebSocket || Document || (status && status >= 400)`; the
truthiness test on `status` is kept as written. -/
def shouldIncludeNetworkEvent (kind : ResourceKind) (status : Int) : Prop :=
  kind = .XHR ∨ kind = .Fetch ∨ kind = .WebSocket ∨ kind = .Document ∨
    (status ≠ 0 ∧ status ≥ 400)

instance (kind : ResourceKind) (status : Int) :
    Decidable (shouldIncludeNetworkEvent kind status) := by
  unfold shouldIncludeNetworkEvent; infer_instance

/-- The completed event `handleNetworkResponse` constructs by explicit field
assignment from the pending entry and the response (background.ts:862-875).
The `||` fallbacks on `timestamp`, `wallTime` and `videoTimestamp` are kept
as written. -/
def mkCompletedEvent (partialEvent : PartialNetworkEvent)
    (params : ResponseReceivedParams) : NetworkEvent :=
  { requestId := partialEvent.requestId.getD ""
    url := partialEvent.url.getD ""
    method := partialEvent.method.getD ""
    headers := partialEvent.headers.getD []
    postData := partialEvent.postData
    timestamp := jsOrQ partialEvent.timestamp params.timestamp
    wallTime := jsOrQ partialEvent.wallTime 0
    videoTimestamp := jsOrZ partialEvent.videoTimestamp 0
    status := params.status
    statusText := params.statusText
    responseHeaders := some (sanitizeHeaders params.responseHeaders)
    mimeType := some params.mimeType }

/-- The failed event `handleNetworkLoadingFailed` constructs
(background.ts:951-962): status `0` is the "no status" sentinel and the error
text becomes the status text. -/
def mkFailedEvent (partialEvent : PartialNetworkEvent)
    (params : LoadingFailedParams) : NetworkEvent :=
  { requestId := partialEvent.requestId.getD ""
    url := partialEvent.url.getD ""
    method := partialEvent.method.getD ""
    headers := partialEvent.headers.getD []
    postData := partialEvent.postData
    timestamp := jsOrQ partialEvent.timestamp params.timestamp
    wallTime := jsOrQ partialEvent.wallTime 0
    videoTimestamp := jsOrZ partialEvent.videoTimestamp 0
    status := 0
    statusText := params.errorText }

/-- `handleNetworkResponse` (background.ts:827-911).  The size-triggered flush
(`buffer.length >= BUFFER_FLUSH_SIZE`, fire-and-forget) is taken as the
sequential flush step; `now` is its sweep clock reading. -/
def handleNetworkResponse (st : BgState) (tabId : Int)
    (params : ResponseReceivedParams) (now : Int) : BgState :=
  match mget st.tabIdToSessionId tabId with
  | none => st
  | some sessionId =>
  match mget st.sessions sessionId with
  | none => st
  | some session =>
  if session.status ≠ .recording then st
  else
  match mget st.pendingNetworkRequests sessionId with
  | none => st
  | some pendingRequests =>
  match mget pendingRequests params.requestId with
  | none => st
  | some partialEvent =>
    if ¬ (jsTruthyStr partialEvent.requestId = true ∧
          jsTruthyStr partialEvent.url = true ∧
          jsTruthyStr partialEvent.method = true) then
      { st with pendingNetworkRequests := (mset st.pendingNetworkRequests sessionId
          (mdel pendingRequests params.requestId)) }
    else
      let completedEvent : NetworkEvent := mkCompletedEvent partialEvent params
      if ¬ shouldIncludeNetworkEvent params.kind completedEvent.status then
        { st with pendingNetworkRequests := (mset st.pendingNetworkRequests sessionId
            (mdel pendingRequests params.requestId)) }
      else
        let st :=
          match mget st.networkEventBuffers sessionId with
          | none => st
          | some buffer =>
            let buffer' := buffer ++ [completedEvent]
            let st := { st with
              networkEventBuffers := mset st.networkEventBuffers sessionId buffer',
              sessions := (mset st.sessions sessionId
                { session with networkEventCount := session.networkEventCount + 1 }) }
            if buffer'.length ≥ 50 then flushTelemetryBuffers st sessionId now else st
        { st with pendingNetworkRequests := (mset st.pendingNetworkRequests sessionId
            (mdel ((mget st.pendingNetworkRequests sessionId).getD [])
              params.requestId)) }

/-- `handleNetworkLoadingFailed` (background.ts:916-980); failed requests are
always retained, with status `0` as the "no status" sentinel and the error
text as status text. -/
def handleNetworkLoadingFailed (st : BgState) (tabId : Int)
    (params : LoadingFailedParams) (now : Int) : BgState :=
  match mget st.tabIdToSessionId tabId with
  | none => st
  | some sessionId =>
  match mget st.sessions sessionId with
  | none => st
  | some session =>
  if session.status ≠ .recording then st
  else
  match mget st.pendingNetworkRequests sessionId with
  | none => st
  | some pendingRequests =>
  match mget pendingRequests params.requestId with
  | none => st
  | some partialEvent =>
    if ¬ (jsTruthyStr partialEvent.requestId = true ∧
          jsTruthyStr partialEvent.url = true ∧
          jsTruthyStr partialEvent.method = true) then
      { st with pendingNetworkRequests := (mset st.pendingNetworkRequests sessionId
          (mdel pendingRequests params.requestId)) }
    else
      let failedEvent : NetworkEvent := mkFailedEvent partialEvent params
      let st :=
        match mget st.networkEventBuffers sessionId with
        | none => st
        | some buffer =>
          let buffer' := buffer ++ [failedEvent]
          let st := { st with
            networkEventBuffers := mset st.networkEventBuffers sessionId buffer',
            sessions := (mset st.sessions sessionId
              { session with networkEventCount := session.networkEventCount + 1 }) }
          if buffer'.length ≥ 50 then flushTelemetryBuffers st sessionId now else st
      { st with pendingNetworkRequests := (mset st.pendingNetworkRequests sessionId
          (mdel ((mget st.pendingNetworkRequests sessionId).getD [])
            params.requestId)) }

/-- The console-type-to-level switch of `handleConsoleAPICalled`
(background.ts:1001-1017). -/
def mapConsoleLevel (t : String) : String :=
  if t = "warning" then "warn"
  else if t = "error" then "error"
  else if t = "info" then "info"
  else if t = "debug" then "debug"
  else "log"

/-- `handleConsoleAPICalled` (background.ts:985-1058); `now` is the
`Date.now()` wall time taken because `Runtime.consoleAPICalled` reports none. -/
def handleConsoleAPICalled (st : BgState) (tabId : Int)
    (params : ConsoleAPICalledParams) (now : Int) : BgState :=
  match mget st.tabIdToSessionId tabId with
  | none => st
  | some sessionId =>
  match mget st.sessions sessionId with
  | none => st
  | some session =>
  if session.status ≠ .recording then st
  else
    let consoleEvent : ConsoleEvent := {
      level := mapConsoleLevel params.kind
      text := params.argsText
      timestamp := params.timestamp
      wallTime := now
      videoTimestamp := calculateVideoTimestamp session.sessionStartTime now }
    match mget st.consoleEventBuffers sessionId with
    | none => st
    | some buffer =>
      let buffer' := buffer ++ [consoleEvent]
      let st := { st with
        consoleEventBuffers := mset st.consoleEventBuffers sessionId buffer',
        sessions := (mset st.sessions sessionId
          { session with consoleEventCount := session.consoleEventCount + 1 }) }
      if buffer'.length ≥ 50 then flushTelemetryBuffers st sessionId now else st

/-! ## Handler invocation traces -/

/-- One message-handler invocation together with its external inputs. -/
inductive BgEvent : Type
  | start (tabId : Int) (now : Int) (includeAudio includeMicrophone cdpAttachOk : Bool)
  | mediaReady (sessionId : String)
  | stopRecording (tabId : Int) (now : Int)
  | mediaStopped (sessionId : String) (now : Int)
  | mediaError (sessionId : String) (errorText : String) (stage : MediaStage) (now : Int)
  | requestSent (tabId : Int) (params : RequestWillBeSentParams)
  | responseReceived (tabId : Int) (params : ResponseReceivedParams) (now : Int)
  | loadingFailed (tabId : Int) (params : LoadingFailedParams) (now : Int)
  | consoleCalled (tabId : Int) (params : ConsoleAPICalledParams) (now : Int)
  | timerFlush (sessionId : String) (now : Int)
deriving DecidableEq

/-- Dispatch of one invocation (the `handleMessage` router plus the CDP
listener registrations). -/
def bgStep (st : BgState) (e : BgEvent) : BgState :=
  match e with
  | .start tabId now audio mic cdp => (handleStartRecording st tabId now audio mic cdp).1
  | .mediaReady sid => handleMediaReady st sid
  | .stopRecording tabId now => (handleStopRecording st tabId now).1
  | .mediaStopped sid now => handleMediaStopped st sid now
  | .mediaError sid err stage now => handleMediaError st sid err stage now
  | .requestSent tabId p => handleNetworkRequestWillBeSent st tabId p
  | .responseReceived tabId p now => handleNetworkResponse st tabId p now
  | .loadingFailed tabId p now => handleNetworkLoadingFailed st tabId p now
  | .consoleCalled tabId p now => handleConsoleAPICalled st tabId p now
  | .timerFlush sid now => flushTelemetryBuffers st sid now

/-- State after a whole sequence of handler invocations, from the fresh
service worker. -/
def bgRun (tr : List BgEvent) : BgState := tr.foldl bgStep bgInit

/-- The status of the session registered under a session id. -/
def statusOf (st : BgState) (sid : String) : Option SessionStatus :=
  (mget st.sessions sid).map SessionState.status

/-! ## Association-list facts -/

theorem mget_mem {κ α : Type} [DecidableEq κ] {m : List (κ × α)} {k : κ} {v : α}
    (h : mget m k = some v) : (k, v) ∈ m := by
  induction m with
  | nil => simp [mget] at h
  | cons p rest ih =>
    by_cases hp : p.1 = k
    · simp only [mget, if_pos hp] at h
      have : p = (k, v) := by
        cases p
        simp_all
      exact this ▸ List.mem_cons_self _ _
    · simp only [mget, if_neg hp] at h
      exact List.mem_cons_of_mem _ (ih h)

theorem mget_eq_none_iff {κ α : Type} [DecidableEq κ] {m : List (κ × α)} {k : κ} :
    mget m k = none ↔ k ∉ m.map Prod.fst := by
  induction m with
  | nil => simp [mget]
  | cons p rest ih =>
    by_cases hp : p.1 = k
    · simp [mget, hp]
    · simp [mget, hp, ih, Ne.symm hp]

theorem mget_of_mem_of_nodup {κ α : Type} [DecidableEq κ] {m : List (κ × α)} {k : κ} {v : α}
    (hn : (m.map Prod.fst).Nodup) (h : (k, v) ∈ m) : mget m k = some v := by
  induction m with
  | nil => simp at h
  | cons p rest ih =>
    rcases List.mem_cons.mp h with he | hm
    · subst he
      simp [mget]
    · have hp : p.1 ≠ k := by
        intro hk
        have : k ∈ rest.map Prod.fst := List.mem_map_of_mem Prod.fst hm
        simp only [List.map_cons, List.nodup_cons] at hn
        exact hn.1 (hk ▸ this)
      simp only [List.map_cons, List.nodup_cons] at hn
      simp [mget, hp, ih hn.2 hm]

theorem mem_mset {κ α : Type} [DecidableEq κ] {m : List (κ × α)} {k : κ} {v : α} {p : κ × α}
    (h : p ∈ mset m k v) : p = (k, v) ∨ p ∈ m := by
  induction m with
  | nil => simp [mset] at h; left; exact h
  | cons q rest ih =>
    by_cases hq : q.1 = k
    · simp only [mset, if_pos hq] at h
      rcases List.mem_cons.mp h with he | hm
      · left; exact he
      · right; exact List.mem_cons_of_mem _ hm
    · simp only [mset, if_neg hq] at h
      rcases List.mem_cons.mp h with he | hm
      · right; exact he ▸ List.mem_cons_self _ _
      · rcases ih hm with h' | h'
        · left; exact h'
        · right; exact List.mem_cons_of_mem _ h'

theorem keys_mset {κ α : Type} [DecidableEq κ] (m : List (κ × α)) (k : κ) (v : α) :
    (mset m k v).map Prod.fst =
      if k ∈ m.map Prod.fst then m.map Prod.fst else m.map Prod.fst ++ [k] := by
  induction m with
  | nil => simp [mset]
  | cons q rest ih =>
    by_cases hq : q.1 = k
    · simp [mset, hq]
    · simp only [mset, if_neg hq, List.map_cons, ih]
      by_cases hk : k ∈ rest.map Prod.fst <;> simp [hk, Ne.symm hq]

theorem nodup_keys_mset {κ α : Type} [DecidableEq κ] {m : List (κ × α)} (k : κ) (v : α)
    (hn : (m.map Prod.fst).Nodup) : ((mset m k v).map Prod.fst).Nodup := by
  rw [keys_mset]
  by_cases hk : k ∈ m.map Prod.fst
  · simpa [hk] using hn
  · simpa [hk, List.nodup_append] using hn

theorem mdel_sublist {κ α : Type} [DecidableEq κ] (m : List (κ × α)) (k : κ) :
    (mdel m k).Sublist m := by
  induction m with
  | nil => simp [mdel]
  | cons q rest ih =>
    by_cases hq : q.1 = k
    · simp only [mdel, if_pos hq]
      exact ih.cons q
    · simp only [mdel, if_neg hq]
      exact ih.cons₂ q

theorem nodup_keys_mdel {κ α : Type} [DecidableEq κ] {m : List (κ × α)} (k : κ)
    (hn : (m.map Prod.fst).Nodup) : ((mdel m k).map Prod.fst).Nodup :=
  (((mdel_sublist m k).map Prod.fst).nodup hn)

theorem mem_mdel {κ α : Type} [DecidableEq κ] {m : List (κ × α)} {k : κ} {p : κ × α}
    (h : p ∈ mdel m k) : p ∈ m :=
  (mdel_sublist m k).mem h

/-! ## Session registry well-formedness

The `sessions` map binds each session id to the session carrying that id, with
no duplicate keys.  This holds from the fresh service worker onward. -/

/-- Registry well-formedness. -/
def SessionsWF (st : BgState) : Prop :=
  (st.sessions.map Prod.fst).Nodup ∧ ∀ p ∈ st.sessions, p.2.sessionId = p.1

/-! ## How each handler acts on the session registry -/

theorem flushTelemetryBuffers_sessions (st : BgState) (sid : String) (now : Int) :
    (flushTelemetryBuffers st sid now).sessions = st.sessions := by
  unfold flushTelemetryBuffers
  dsimp only
  repeat' split
  all_goals rfl

theorem flushTelemetryBuffers_tabIndex (st : BgState) (sid : String) (now : Int) :
    (flushTelemetryBuffers st sid now).tabIdToSessionId = st.tabIdToSessionId := by
  unfold flushTelemetryBuffers
  dsimp only
  repeat' split
  all_goals rfl

theorem handleStartRecording_sessions (st : BgState) (tabId now : Int) (a m c : Bool) :
    (handleStartRecording st tabId now a m c).1.sessions =
      mset st.sessions (mkSessionId tabId now)
        { sessionId := mkSessionId tabId now
          tabId := tabId
          status := .idle
          sessionStartTime := now
          includeAudio := a
          includeMicrophone := m
          debuggerAttached := c
          offscreenDocumentActive := true } := rfl

theorem handleMediaReady_sessions (st : BgState) (sid : String) :
    (handleMediaReady st sid).sessions =
      (match mget st.sessions sid with
       | none => st.sessions
       | some session => mset st.sessions sid { session with status := .recording }) := by
  unfold handleMediaReady
  cases mget st.sessions sid with
  | none => rfl
  | some session =>
    dsimp only
    split <;> rfl

theorem handleStopRecording_sessions (st : BgState) (tabId now : Int) :
    (handleStopRecording st tabId now).1.sessions =
      (match findRecordingSession st.sessions tabId with
       | none => st.sessions
       | some session => mset st.sessions session.sessionId
           { session with status := .stopping, sessionStopTime := some now }) := by
  unfold handleStopRecording
  cases findRecordingSession st.sessions tabId <;> rfl

theorem handleMediaStopped_sessions (st : BgState) (sid : String) (now : Int) :
    (handleMediaStopped st sid now).sessions =
      (match mget st.sessions sid with
       | none => st.sessions
       | some session => mset st.sessions sid
           { session with
             status := .completed
             debuggerAttached := false
             offscreenDocumentActive := false }) := by
  unfold handleMediaStopped
  cases mget st.sessions sid with
  | none => rfl
  | some session =>
    dsimp only
    rw [flushTelemetryBuffers_sessions]

theorem handleMediaError_sessions (st : BgState) (sid err : String) (stage : MediaStage)
    (now : Int) :
    (handleMediaError st sid err stage now).sessions =
      (match mget st.sessions sid with
       | none => st.sessions
       | some session =>
         if session.debuggerAttached ∧ (stage = .recording ∨ stage = .stopping) then
           mset st.sessions sid
             { session with
               status := .error
               lastError := some err
               errorRecoverable := some (decide (stage ≠ .init))
               debuggerAttached := false }
         else
           mset st.sessions sid
             { session with
               status := .error
               lastError := some err
               errorRecoverable := some (decide (stage ≠ .init))
               offscreenDocumentActive :=
                 (if stage = .init then false else session.offscreenDocumentActive) }) := by
  unfold handleMediaError
  cases mget st.sessions sid with
  | none => rfl
  | some session =>
    dsimp only
    split
    · rw [flushTelemetryBuffers_sessions]
    · rfl

theorem handleNetworkRequestWillBeSent_sessions (st : BgState) (tabId : Int)
    (params : RequestWillBeSentParams) :
    (handleNetworkRequestWillBeSent st tabId params).sessions = st.sessions := by
  unfold handleNetworkRequestWillBeSent
  dsimp only
  repeat' split
  all_goals rfl

theorem statusOf_mset_same (st : BgState) (sid₀ : String) (session s' : SessionState)
    (h : mget st.sessions sid₀ = some session) (hs : s'.status = session.status)
    (sid : String) :
    (mget (mset st.sessions sid₀ s') sid).map SessionState.status = statusOf st sid := by
  by_cases he : sid = sid₀
  · subst he
    rw [mget_mset_self]
    simp [statusOf, h, hs]
  · rw [mget_mset_ne _ _ _ _ he]
    rfl

theorem handleNetworkResponse_sessions_shape (st : BgState) (tabId : Int)
    (params : ResponseReceivedParams) (now : Int) :
    (handleNetworkResponse st tabId params now).sessions = st.sessions ∨
    ∃ sid₀ session, mget st.sessions sid₀ = some session ∧
      (handleNetworkResponse st tabId params now).sessions =
        mset st.sessions sid₀
          { session with networkEventCount := session.networkEventCount + 1 } := by
  unfold handleNetworkResponse
  cases h1 : mget st.tabIdToSessionId tabId with
  | none => exact Or.inl rfl
  | some sid₀ =>
  dsimp only
  cases h2 : mget st.sessions sid₀ with
  | none => exact Or.inl rfl
  | some session =>
  dsimp only
  by_cases h3 : session.status ≠ SessionStatus.recording
  · rw [if_pos h3]
    exact Or.inl rfl
  · rw [if_neg h3]
    cases h4 : mget st.pendingNetworkRequests sid₀ with
    | none => exact Or.inl rfl
    | some pendingRequests =>
    dsimp only
    cases h5 : mget pendingRequests params.requestId with
    | none => exact Or.inl rfl
    | some partialEvent =>
    dsimp only
    split
    · exact Or.inl rfl
    · split
      · exact Or.inl rfl
      · cases h8 : mget st.networkEventBuffers sid₀ with
        | none => exact Or.inl rfl
        | some buffer =>
        dsimp only
        split
        · refine Or.inr ⟨sid₀, session, h2, ?_⟩
          rw [flushTelemetryBuffers_sessions]
        · exact Or.inr ⟨sid₀, session, h2, rfl⟩

theorem handleNetworkLoadingFailed_sessions_shape (st : BgState) (tabId : Int)
    (params : LoadingFailedParams) (now : Int) :
    (handleNetworkLoadingFailed st tabId params now).sessions = st.sessions ∨
    ∃ sid₀ session, mget st.sessions sid₀ = some session ∧
      (handleNetworkLoadingFailed st tabId params now).sessions =
        mset st.sessions sid₀
          { session with networkEventCount := session.networkEventCount + 1 } := by
  unfold handleNetworkLoadingFailed
  cases h1 : mget st.tabIdToSessionId tabId with
  | none => exact Or.inl rfl
  | some sid₀ =>
  dsimp only
  cases h2 : mget st.sessions sid₀ with
  | none => exact Or.inl rfl
  | some session =>
  dsimp only
  by_cases h3 : session.status ≠ SessionStatus.recording
  · rw [if_pos h3]
    exact Or.inl rfl
  · rw [if_neg h3]
    cases h4 : mget st.pendingNetworkRequests sid₀ with
    | none => exact Or.inl rfl
    | some pendingRequests =>
    dsimp only
    cases h5 : mget pendingRequests params.requestId with
    | none => exact Or.inl rfl
    | some partialEvent =>
    dsimp only
    split
    · exact Or.inl rfl
    · cases h8 : mget st.networkEventBuffers sid₀ with
      | none => exact Or.inl rfl
      | some buffer =>
      dsimp only
      split
      · refine Or.inr ⟨sid₀, session, h2, ?_⟩
        rw [flushTelemetryBuffers_sessions]
      · exact Or.inr ⟨sid₀, session, h2, rfl⟩

theorem handleConsoleAPICalled_sessions_shape (st : BgState) (tabId : Int)
    (params : ConsoleAPICalledParams) (now : Int) :
    (handleConsoleAPICalled st tabId params now).sessions = st.sessions ∨
    ∃ sid₀ session, mget st.sessions sid₀ = some session ∧
      (handleConsoleAPICalled st tabId params now).sessions =
        mset st.sessions sid₀
          { session with consoleEventCount := session.consoleEventCount + 1 } := by
  unfold handleConsoleAPICalled
  cases h1 : mget st.tabIdToSessionId tabId with
  | none => exact Or.inl rfl
  | some sid₀ =>
  dsimp only
  cases h2 : mget st.sessions sid₀ with
  | none => exact Or.inl rfl
  | some session =>
  dsimp only
  by_cases h3 : session.status ≠ SessionStatus.recording
  · rw [if_pos h3]
    exact Or.inl rfl
  · rw [if_neg h3]
    cases h8 : mget st.consoleEventBuffers sid₀ with
    | none => exact Or.inl rfl
    | some buffer =>
    dsimp only
    split
    · refine Or.inr ⟨sid₀, session, h2, ?_⟩
      rw [flushTelemetryBuffers_sessions]
    · exact Or.inr ⟨sid₀, session, h2, rfl⟩

/-! ## Registry well-formedness is preserved by every handler -/

theorem sessionsWF_mset {m : List (String × SessionState)} {k : String} {v : SessionState}
    (hn : (m.map Prod.fst).Nodup) (hv : ∀ p ∈ m, p.2.sessionId = p.1)
    (h : v.sessionId = k) :
    ((mset m k v).map Prod.fst).Nodup ∧ ∀ p ∈ mset m k v, p.2.sessionId = p.1 :=
  ⟨nodup_keys_mset k v hn,
   fun p hp => (mem_mset hp).elim (fun he => by rw [he]; exact h) (hv p)⟩

theorem sessionsWF_of_eq {st st' : BgState} (h : st'.sessions = st.sessions)
    (hwf : SessionsWF st) : SessionsWF st' := by
  unfold SessionsWF
  rw [h]
  exact hwf

theorem sessionsWF_of_mset {st st' : BgState} {k : String} {v : SessionState}
    (h : st'.sessions = mset st.sessions k v) (hk : v.sessionId = k)
    (hwf : SessionsWF st) : SessionsWF st' := by
  unfold SessionsWF
  rw [h]
  exact sessionsWF_mset hwf.1 hwf.2 hk

theorem bgStep_wf (st : BgState) (e : BgEvent) (hwf : SessionsWF st) :
    SessionsWF (bgStep st e) := by
  cases e with
  | start tabId now a m c =>
    exact sessionsWF_of_mset (handleStartRecording_sessions st tabId now a m c) rfl hwf
  | mediaReady sid =>
    show SessionsWF (handleMediaReady st sid)
    cases h : mget st.sessions sid with
    | none =>
      refine sessionsWF_of_eq ?_ hwf
      rw [handleMediaReady_sessions, h]
    | some session =>
      refine sessionsWF_of_mset (k := sid) (v := { session with status := .recording }) ?_ ?_ hwf
      · rw [handleMediaReady_sessions, h]
      · exact hwf.2 _ (mget_mem h)
  | stopRecording tabId now =>
    show SessionsWF (handleStopRecording st tabId now).1
    cases h : findRecordingSession st.sessions tabId with
    | none =>
      refine sessionsWF_of_eq ?_ hwf
      rw [handleStopRecording_sessions, h]
    | some session =>
      refine sessionsWF_of_mset (k := session.sessionId)
        (v := { session with status := .stopping, sessionStopTime := some now }) ?_ rfl hwf
      rw [handleStopRecording_sessions, h]
  | mediaStopped sid now =>
    show SessionsWF (handleMediaStopped st sid now)
    cases h : mget st.sessions sid with
    | none =>
      refine sessionsWF_of_eq ?_ hwf
      rw [handleMediaStopped_sessions, h]
    | some session =>
      refine sessionsWF_of_mset (k := sid)
        (v := { session with
                status := .completed
                debuggerAttached := false
                offscreenDocumentActive := false }) ?_ ?_ hwf
      · rw [handleMediaStopped_sessions, h]
      · exact hwf.2 _ (mget_mem h)
  | mediaError sid err stage now =>
    show SessionsWF (handleMediaError st sid err stage now)
    cases h : mget st.sessions sid with
    | none =>
      refine sessionsWF_of_eq ?_ hwf
      rw [handleMediaError_sessions, h]
    | some session =>
      by_cases hc : session.debuggerAttached ∧ (stage = .recording ∨ stage = .stopping)
      · refine sessionsWF_of_mset (k := sid)
          (v := { session with
                  status := .error
                  lastError := some err
                  errorRecoverable := some (decide (stage ≠ .init))
                  debuggerAttached := false }) ?_ ?_ hwf
        · rw [handleMediaError_sessions, h]
          exact if_pos hc
        · exact hwf.2 _ (mget_mem h)
      · refine sessionsWF_of_mset (k := sid)
          (v := { session with
                  status := .error
                  lastError := some err
                  errorRecoverable := some (decide (stage ≠ .init))
                  offscreenDocumentActive :=
                    (if stage = .init then false else session.offscreenDocumentActive) }) ?_ ?_ hwf
        · rw [handleMediaError_sessions, h]
          exact if_neg hc
        · exact hwf.2 _ (mget_mem h)
  | requestSent tabId p =>
    exact sessionsWF_of_eq (handleNetworkRequestWillBeSent_sessions st tabId p) hwf
  | responseReceived tabId p now =>
    rcases handleNetworkResponse_sessions_shape st tabId p now with h | ⟨sid₀, session, h2, h⟩
    · exact sessionsWF_of_eq h hwf
    · exact sessionsWF_of_mset h (hwf.2 _ (mget_mem h2)) hwf
  | loadingFailed tabId p now =>
    rcases handleNetworkLoadingFailed_sessions_shape st tabId p now with h | ⟨sid₀, session, h2, h⟩
    · exact sessionsWF_of_eq h hwf
    · exact sessionsWF_of_mset h (hwf.2 _ (mget_mem h2)) hwf
  | consoleCalled tabId p now =>
    rcases handleConsoleAPICalled_sessions_shape st tabId p now with h | ⟨sid₀, session, h2, h⟩
    · exact sessionsWF_of_eq h hwf
    · exact sessionsWF_of_mset h (hwf.2 _ (mget_mem h2)) hwf
  | timerFlush sid now =>
    exact sessionsWF_of_eq (flushTelemetryBuffers_sessions st sid now) hwf

theorem bgInit_wf : SessionsWF bgInit := by
  constructor
  · simp [bgInit]
  · intro p hp
    simp [bgInit] at hp

/-! ## The status machine (§4.1) -/

/-- The legal transition set of §4.1: `idle → recording → stopping →
completed`, plus an edge from any state to `error`. -/
def legalEdge (a b : SessionStatus) : Prop :=
  (a = .idle ∧ b = .recording) ∨ (a = .recording ∧ b = .stopping) ∨
  (a = .stopping ∧ b = .completed) ∨ b = .error

/-- Protocol discipline on handler invocations: MEDIA_READY is delivered only
for sessions still in `idle`, MEDIA_STOPPED only for sessions in `stopping`,
and a start request never reuses a live session id (ids embed the start
instant).  The unguarded handlers make this discipline necessary — see the
counterexample for the unamended claim. -/
def okBgEvent (st : BgState) (e : BgEvent) : Bool :=
  match e with
  | .start tabId now _ _ _ => (mget st.sessions (mkSessionId tabId now)).isNone
  | .mediaReady sid =>
    (match mget st.sessions sid with
     | none => true
     | some s => s.status == .idle)
  | .mediaStopped sid _ =>
    (match mget st.sessions sid with
     | none => true
     | some s => s.status == .stopping)
  | _ => true

/-- The discipline along a whole trace. -/
def okBgTrace : BgState → List BgEvent → Bool
  | _, [] => true
  | st, e :: rest => okBgEvent st e && okBgTrace (bgStep st e) rest

/-- At every step of the trace, every registered session's status is either
unchanged or moves along a legal edge. -/
def LegalBgSteps : BgState → List BgEvent → Prop
  | _, [] => True
  | st, e :: rest =>
    (∀ sid s s', mget st.sessions sid = some s →
       mget (bgStep st e).sessions sid = some s' →
       s.status = s'.status ∨ legalEdge s.status s'.status) ∧
    LegalBgSteps (bgStep st e) rest

theorem findRecordingSession_spec {sessions : List (String × SessionState)}
    {tabId : Int} {session : SessionState}
    (h : findRecordingSession sessions tabId = some session) :
    session ∈ sessions.map Prod.snd ∧ session.tabId = tabId ∧
      session.status = .recording := by
  unfold findRecordingSession at h
  have hmem := List.mem_of_find?_eq_some h
  have hp := List.find?_some h
  simp only [Bool.and_eq_true, decide_eq_true_eq] at hp
  exact ⟨hmem, hp.1, hp.2⟩

theorem bgStep_status_legal (st : BgState) (e : BgEvent) (hwf : SessionsWF st)
    (hok : okBgEvent st e = true) :
    ∀ sid s s', mget st.sessions sid = some s →
      mget (bgStep st e).sessions sid = some s' →
      s.status = s'.status ∨ legalEdge s.status s'.status := by
  intro sid s s' hs hs'
  cases e with
  | start tabId now a m c =>
    replace hs' : mget (mset st.sessions (mkSessionId tabId now)
        { sessionId := mkSessionId tabId now
          tabId := tabId
          status := .idle
          sessionStartTime := now
          includeAudio := a
          includeMicrophone := m
          debuggerAttached := c
          offscreenDocumentActive := true }) sid = some s' := by
      rw [← handleStartRecording_sessions st tabId now a m c]
      exact hs'
    simp only [okBgEvent, Option.isNone_iff_eq_none] at hok
    by_cases he : sid = mkSessionId tabId now
    · rw [he, hok] at hs
      cases hs
    · rw [mget_mset_ne _ _ _ _ he, hs] at hs'
      cases hs'
      exact Or.inl rfl
  | mediaReady sid₀ =>
    replace hs' : mget (handleMediaReady st sid₀).sessions sid = some s' := hs'
    rw [handleMediaReady_sessions] at hs'
    cases h : mget st.sessions sid₀ with
    | none =>
      rw [h] at hs'
      rw [hs] at hs'
      cases hs'
      exact Or.inl rfl
    | some session =>
      simp only [okBgEvent, h, beq_iff_eq] at hok
      rw [h] at hs'
      by_cases he : sid = sid₀
      · subst he
        rw [hs] at h
        cases h
        rw [mget_mset_self] at hs'
        cases hs'
        exact Or.inr (Or.inl ⟨hok, rfl⟩)
      · rw [mget_mset_ne _ _ _ _ he, hs] at hs'
        cases hs'
        exact Or.inl rfl
  | stopRecording tabId now =>
    replace hs' : mget (handleStopRecording st tabId now).1.sessions sid = some s' := hs'
    rw [handleStopRecording_sessions] at hs'
    cases h : findRecordingSession st.sessions tabId with
    | none =>
      rw [h] at hs'
      rw [hs] at hs'
      cases hs'
      exact Or.inl rfl
    | some session =>
      obtain ⟨hmem, -, hrec⟩ := findRecordingSession_spec h
      obtain ⟨p, hpmem, hpsnd⟩ := List.mem_map.mp hmem
      have hid : session.sessionId = p.1 := by rw [← hpsnd]; exact hwf.2 p hpmem
      have hlook : mget st.sessions session.sessionId = some session := by
        rw [hid]
        exact mget_of_mem_of_nodup hwf.1 (by rw [← hpsnd]; exact hpmem)
      rw [h] at hs'
      by_cases he : sid = session.sessionId
      · subst he
        rw [hs] at hlook
        cases hlook
        rw [mget_mset_self] at hs'
        cases hs'
        exact Or.inr (Or.inr (Or.inl ⟨hrec, rfl⟩))
      · rw [mget_mset_ne _ _ _ _ he, hs] at hs'
        cases hs'
        exact Or.inl rfl
  | mediaStopped sid₀ now =>
    replace hs' : mget (handleMediaStopped st sid₀ now).sessions sid = some s' := hs'
    rw [handleMediaStopped_sessions] at hs'
    cases h : mget st.sessions sid₀ with
    | none =>
      rw [h] at hs'
      rw [hs] at hs'
      cases hs'
      exact Or.inl rfl
    | some session =>
      simp only [okBgEvent, h, beq_iff_eq] at hok
      rw [h] at hs'
      by_cases he : sid = sid₀
      · subst he
        rw [hs] at h
        cases h
        rw [mget_mset_self] at hs'
        cases hs'
        exact Or.inr (Or.inr (Or.inr (Or.inl ⟨hok, rfl⟩)))
      · rw [mget_mset_ne _ _ _ _ he, hs] at hs'
        cases hs'
        exact Or.inl rfl
  | mediaError sid₀ err stage now =>
    replace hs' : mget (handleMediaError st sid₀ err stage now).sessions sid = some s' := hs'
    rw [handleMediaError_sessions] at hs'
    cases h : mget st.sessions sid₀ with
    | none =>
      rw [h] at hs'
      rw [hs] at hs'
      cases hs'
      exact Or.inl rfl
    | some session =>
      rw [h] at hs'
      dsimp only at hs'
      by_cases he : sid = sid₀
      · subst he
        by_cases hc : session.debuggerAttached = true ∧ (stage = .recording ∨ stage = .stopping)
        · rw [if_pos hc, mget_mset_self] at hs'
          cases hs'
          exact Or.inr (Or.inr (Or.inr (Or.inr rfl)))
        · rw [if_neg hc, mget_mset_self] at hs'
          cases hs'
          exact Or.inr (Or.inr (Or.inr (Or.inr rfl)))
      · by_cases hc : session.debuggerAttached = true ∧ (stage = .recording ∨ stage = .stopping)
        · rw [if_pos hc, mget_mset_ne _ _ _ _ he, hs] at hs'
          cases hs'
          exact Or.inl rfl
        · rw [if_neg hc, mget_mset_ne _ _ _ _ he, hs] at hs'
          cases hs'
          exact Or.inl rfl
  | requestSent tabId p =>
    replace hs' : mget (handleNetworkRequestWillBeSent st tabId p).sessions sid = some s' := hs'
    rw [handleNetworkRequestWillBeSent_sessions, hs] at hs'
    cases hs'
    exact Or.inl rfl
  | responseReceived tabId p now =>
    replace hs' : mget (handleNetworkResponse st tabId p now).sessions sid = some s' := hs'
    rcases handleNetworkResponse_sessions_shape st tabId p now with hsh | ⟨sid₀, session, h2, hsh⟩
    · rw [hsh, hs] at hs'
      cases hs'
      exact Or.inl rfl
    · rw [hsh] at hs'
      by_cases he : sid = sid₀
      · subst he
        rw [hs] at h2
        cases h2
        rw [mget_mset_self] at hs'
        cases hs'
        exact Or.inl rfl
      · rw [mget_mset_ne _ _ _ _ he, hs] at hs'
        cases hs'
        exact Or.inl rfl
  | loadingFailed tabId p now =>
    replace hs' : mget (handleNetworkLoadingFailed st tabId p now).sessions sid = some s' := hs'
    rcases handleNetworkLoadingFailed_sessions_shape st tabId p now with hsh | ⟨sid₀, session, h2, hsh⟩
    · rw [hsh, hs] at hs'
      cases hs'
      exact Or.inl rfl
    · rw [hsh] at hs'
      by_cases he : sid = sid₀
      · subst he
        rw [hs] at h2
        cases h2
        rw [mget_mset_self] at hs'
        cases hs'
        exact Or.inl rfl
      · rw [mget_mset_ne _ _ _ _ he, hs] at hs'
        cases hs'
        exact Or.inl rfl
  | consoleCalled tabId p now =>
    replace hs' : mget (handleConsoleAPICalled st tabId p now).sessions sid = some s' := hs'
    rcases handleConsoleAPICalled_sessions_shape st tabId p now with hsh | ⟨sid₀, session, h2, hsh⟩
    · rw [hsh, hs] at hs'
      cases hs'
      exact Or.inl rfl
    · rw [hsh] at hs'
      by_cases he : sid = sid₀
      · subst he
        rw [hs] at h2
        cases h2
        rw [mget_mset_self] at hs'
        cases hs'
        exact Or.inl rfl
      · rw [mget_mset_ne _ _ _ _ he, hs] at hs'
        cases hs'
        exact Or.inl rfl
  | timerFlush sid₀ now =>
    replace hs' : mget (flushTelemetryBuffers st sid₀ now).sessions sid = some s' := hs'
    rw [flushTelemetryBuffers_sessions, hs] at hs'
    cases hs'
    exact Or.inl rfl

theorem legalBgSteps_of_ok : ∀ (tr : List BgEvent) (st : BgState),
    SessionsWF st → okBgTrace st tr = true → LegalBgSteps st tr
  | [], _, _, _ => trivial
  | e :: rest, st, hwf, hok => by
    rw [okBgTrace, Bool.and_eq_true] at hok
    exact ⟨bgStep_status_legal st e hwf hok.1,
      legalBgSteps_of_ok rest (bgStep st e) (bgStep_wf st e hwf) hok.2⟩

/-! ## Claim C2 — session status transitions -/

/-- C2, counterexample to the claim as stated: along the handler sequence
start → media-ready → stop → media-stopped the session ends in `completed`,
and a second MEDIA_READY delivery for the same session is not rejected — it
moves the status straight back to `recording`, because `handleMediaReady`
(background.ts:406-408) sets `status = 'recording'` whenever the session
exists, without checking the current status. -/
theorem c2_counterexample :
    statusOf (bgRun [.start 1 5 false false true, .mediaReady "1-5",
      .stopRecording 1 9, .mediaStopped "1-5" 10]) "1-5" = some .completed ∧
    statusOf (bgRun [.start 1 5 false false true, .mediaReady "1-5",
      .stopRecording 1 9, .mediaStopped "1-5" 10, .mediaReady "1-5"]) "1-5" =
      some .recording := by
  decide

/-- C2 (amended): `handleStopRecording` only moves `recording → stopping` and
`handleMediaError` only targets `error`, but `handleMediaReady` and
`handleMediaStopped` set `recording` / `completed` without checking the
current status, so `completed → recording` is accepted rather than rejected.
Provided MEDIA_READY is delivered only to sessions still in `idle`,
MEDIA_STOPPED only to sessions in `stopping`, and start requests never reuse
a live session id, every status change along every handler sequence follows
the legal edges of §4.1 (`idle → recording → stopping → completed`, plus any
state → `error`). -/
theorem c2_status_edges_amended (tr : List BgEvent)
    (h : okBgTrace bgInit tr = true) : LegalBgSteps bgInit tr :=
  legalBgSteps_of_ok tr bgInit bgInit_wf h

/-- Witness for C2 (amended) on a concrete disciplined trace. -/
theorem c2_witness :
    okBgTrace bgInit [.start 1 5 false false true, .mediaReady "1-5",
      .stopRecording 1 9, .mediaStopped "1-5" 10] = true ∧
    LegalBgSteps bgInit [.start 1 5 false false true, .mediaReady "1-5",
      .stopRecording 1 9, .mediaStopped "1-5" 10] :=
  ⟨by decide, c2_status_edges_amended _ (by decide)⟩

/-! ## Claim C3 — session creation with an active session for the tab -/

/-- C3, counterexample to the claim as stated: with a `recording` session
already registered for tab 1, a second START_RECORDING for the same tab does
not return failure — it succeeds and registers a second session, leaving the
first one in place (`handleStartRecording`, background.ts:163-240, performs no
active-session check). -/
theorem c3_counterexample :
    (handleStartRecording (bgRun [.start 1 5 false false true, .mediaReady "1-5"])
        1 7 false false true).2.success = true ∧
    statusOf (bgRun [.start 1 5 false false true, .mediaReady "1-5"]) "1-5" =
      some .recording ∧
    statusOf (handleStartRecording
        (bgRun [.start 1 5 false false true, .mediaReady "1-5"])
        1 7 false false true).1 "1-5" = some .recording ∧
    statusOf (handleStartRecording
        (bgRun [.start 1 5 false false true, .mediaReady "1-5"])
        1 7 false false true).1 "1-7" = some .idle := by
  decide

/-- C3 (amended): session creation performs no active-session check.  For
every state — in particular states where a non-terminal (`recording`) session
already exists for the target tab — a start request succeeds (external capture
collaborators permitting), registers the fresh `idle` session under the new
id, repoints the tab index to it, and leaves every other registered session
untouched. -/
theorem c3_start_unguarded (st : BgState) (tabId now : Int) (a m c : Bool) :
    (handleStartRecording st tabId now a m c).2.success = true ∧
    (handleStartRecording st tabId now a m c).2.sessionId =
      some (mkSessionId tabId now) ∧
    statusOf (handleStartRecording st tabId now a m c).1 (mkSessionId tabId now) =
      some .idle ∧
    mget (handleStartRecording st tabId now a m c).1.tabIdToSessionId tabId =
      some (mkSessionId tabId now) ∧
    ∀ sid, sid ≠ mkSessionId tabId now →
      mget (handleStartRecording st tabId now a m c).1.sessions sid =
        mget st.sessions sid := by
  refine ⟨rfl, rfl, ?_, ?_, ?_⟩
  · unfold statusOf
    rw [handleStartRecording_sessions, mget_mset_self]
    rfl
  · exact mget_mset_self st.tabIdToSessionId tabId (mkSessionId tabId now)
  · intro sid hne
    rw [handleStartRecording_sessions]
    exact mget_mset_ne _ _ _ _ hne

/-- Witness for C3 (amended): the second start against a live recording
session succeeds and the live session's registry entry is untouched. -/
theorem c3_witness :
    (handleStartRecording (bgRun [.start 1 5 false false true, .mediaReady "1-5"])
        1 7 false false true).2.success = true ∧
    mget (handleStartRecording
        (bgRun [.start 1 5 false false true, .mediaReady "1-5"])
        1 7 false false true).1.sessions "1-5" =
      mget (bgRun [.start 1 5 false false true, .mediaReady "1-5"]).sessions "1-5" := by
  have h := c3_start_unguarded
    (bgRun [.start 1 5 false false true, .mediaReady "1-5"]) 1 7 false false true
  exact ⟨h.1, h.2.2.2.2 "1-5" (by decide)⟩

/-! ## Correlation table: lookups, eviction, and single consumption -/

/-- The pending entry stored for `(sid, rid)`, if any. -/
def pendingLookup (st : BgState) (sid rid : String) : Option PartialNetworkEvent :=
  mget ((mget st.pendingNetworkRequests sid).getD []) rid

/-- All network events a session has durably accepted, in order: the persisted
batches in increasing index order followed by the in-memory buffer. -/
def networkLedger (st : BgState) (sid : String) : List NetworkEvent :=
  ((List.range ((mget st.networkBatchIndices sid).getD 0)).flatMap
    (fun i => (mget st.networkStore (sid, i)).getD [])) ++
  (mget st.networkEventBuffers sid).getD []

theorem flatMap_congr_mem {α β : Type} {l : List α} {f g : α → List β}
    (h : ∀ a ∈ l, f a = g a) : l.flatMap f = l.flatMap g := by
  induction l with
  | nil => rfl
  | cons a rest ih =>
    simp only [List.flatMap_cons]
    rw [h a (List.mem_cons_self _ _), ih (fun b hb => h b (List.mem_cons_of_mem _ hb))]

theorem mget_filter_of_nodup {α : Type} (P : String × α → Bool) (rid : String) :
    ∀ (pm : List (String × α)), (pm.map Prod.fst).Nodup →
      mget (pm.filter P) rid =
        (match mget pm rid with
         | none => none
         | some pe => if P (rid, pe) then some pe else none)
  | [], _ => by simp [mget]
  | (k, v) :: rest, hn => by
    simp only [List.map_cons, List.nodup_cons] at hn
    by_cases hp : k = rid
    · subst hp
      by_cases hP : P (k, v) = true
      · rw [List.filter_cons_of_pos hP]
        simp [mget, hP]
      · rw [List.filter_cons_of_neg (by simpa using hP)]
        have hnone : mget (rest.filter P) k = none := by
          rw [mget_eq_none_iff]
          intro hmem
          exact hn.1 (((List.filter_sublist (p := P) rest).map Prod.fst).subset hmem)
        rw [hnone]
        simp [mget, hP]
    · by_cases hP : P (k, v) = true
      · rw [List.filter_cons_of_pos hP]
        simp only [mget, if_neg hp]
        exact mget_filter_of_nodup P rid rest hn.2
      · rw [List.filter_cons_of_neg (by simpa using hP)]
        simp only [mget, if_neg hp]
        exact mget_filter_of_nodup P rid rest hn.2

theorem flushTelemetryBuffers_pending (st : BgState) (sid : String) (now : Int) :
    (flushTelemetryBuffers st sid now).pendingNetworkRequests =
      (match mget st.pendingNetworkRequests sid with
       | none => st.pendingNetworkRequests
       | some pendingMap => mset st.pendingNetworkRequests sid
           (pendingMap.filter (fun p =>
             decide (¬ ((now : Rat) - (p.2.wallTime.getD 0) * 1000 > 120000))))) := by
  unfold flushTelemetryBuffers
  dsimp only
  repeat' (split <;> (try dsimp only))
  all_goals (first | rfl | simp_all)

theorem flushTelemetryBuffers_networkBufs (st : BgState) (sid : String) (now : Int) :
    (flushTelemetryBuffers st sid now).networkEventBuffers =
      (match mget st.networkEventBuffers sid with
       | none => st.networkEventBuffers
       | some _ => mset st.networkEventBuffers sid []) := by
  unfold flushTelemetryBuffers
  dsimp only
  repeat' (split <;> (try dsimp only))
  all_goals (first | rfl | simp_all)

theorem flushTelemetryBuffers_networkIdx (st : BgState) (sid : String) (now : Int) :
    (flushTelemetryBuffers st sid now).networkBatchIndices =
      (if (mget st.networkEventBuffers sid).getD [] ≠ [] then
         mset st.networkBatchIndices sid (((mget st.networkBatchIndices sid).getD 0) + 1)
       else st.networkBatchIndices) := by
  unfold flushTelemetryBuffers
  dsimp only
  repeat' (split <;> (try dsimp only))
  all_goals (first | rfl | simp_all)

theorem flushTelemetryBuffers_networkStore (st : BgState) (sid : String) (now : Int) :
    (flushTelemetryBuffers st sid now).networkStore =
      (if (mget st.networkEventBuffers sid).getD [] ≠ [] then
         mset st.networkStore (sid, (mget st.networkBatchIndices sid).getD 0)
           ((mget st.networkEventBuffers sid).getD [])
       else st.networkStore) := by
  unfold flushTelemetryBuffers
  dsimp only
  repeat' (split <;> (try dsimp only))
  all_goals (first | rfl | simp_all)

/-- A flush moves the buffered network events into the next batch: the
accepted-event ledger of the session is unchanged. -/
theorem networkLedger_flush (st : BgState) (sid : String) (now : Int) :
    networkLedger (flushTelemetryBuffers st sid now) sid = networkLedger st sid := by
  unfold networkLedger
  rw [flushTelemetryBuffers_networkBufs, flushTelemetryBuffers_networkIdx,
    flushTelemetryBuffers_networkStore]
  by_cases hl : (mget st.networkEventBuffers sid).getD [] ≠ []
  · rw [if_pos hl, if_pos hl]
    cases hb : mget st.networkEventBuffers sid with
    | none =>
      rw [hb] at hl
      simp at hl
    | some l =>
      dsimp only
      rw [mget_mset_self, mget_mset_self]
      simp only [Option.getD_some]
      rw [List.range_succ, List.flatMap_append]
      have hcongr : (List.range ((mget st.networkBatchIndices sid).getD 0)).flatMap
          (fun j => (mget (mset st.networkStore
            (sid, (mget st.networkBatchIndices sid).getD 0) l) (sid, j)).getD []) =
          (List.range ((mget st.networkBatchIndices sid).getD 0)).flatMap
            (fun j => (mget st.networkStore (sid, j)).getD []) := by
        refine flatMap_congr_mem ?_
        intro j hj
        refine congrArg (fun o => Option.getD o []) ?_
        refine mget_mset_ne _ _ _ _ ?_
        intro hcontra
        exact absurd (congrArg Prod.snd hcontra) (List.mem_range.mp hj).ne
      rw [hcongr]
      simp [mget_mset_self]
  · rw [if_neg hl, if_neg hl]
    push_neg at hl
    cases hb : mget st.networkEventBuffers sid with
    | none => rw [hb]
    | some l =>
      rw [hb] at hl
      dsimp only
      simp only [Option.getD_some] at hl
      subst hl
      simp [mget_mset_self]

theorem handleNetworkResponse_tabIndex (st : BgState) (tabId : Int)
    (params : ResponseReceivedParams) (now : Int) :
    (handleNetworkResponse st tabId params now).tabIdToSessionId =
      st.tabIdToSessionId := by
  unfold handleNetworkResponse
  dsimp only
  repeat' (split <;> (try dsimp only))
  all_goals (first | rfl | (rw [flushTelemetryBuffers_tabIndex]))

theorem handleNetworkLoadingFailed_tabIndex (st : BgState) (tabId : Int)
    (params : LoadingFailedParams) (now : Int) :
    (handleNetworkLoadingFailed st tabId params now).tabIdToSessionId =
      st.tabIdToSessionId := by
  unfold handleNetworkLoadingFailed
  dsimp only
  repeat' (split <;> (try dsimp only))
  all_goals (first | rfl | (rw [flushTelemetryBuffers_tabIndex]))

/-- If the correlation table holds no entry for the request id, a late
response is dropped without any state change ("response for unknown request"). -/
theorem handleNetworkResponse_noop_of_missing (st : BgState) (tabId : Int)
    (params : ResponseReceivedParams) (now : Int)
    (h : ∀ sid, mget st.tabIdToSessionId tabId = some sid →
      pendingLookup st sid params.requestId = none) :
    handleNetworkResponse st tabId params now = st := by
  unfold handleNetworkResponse
  cases h1 : mget st.tabIdToSessionId tabId with
  | none => rfl
  | some sid =>
  dsimp only
  cases h2 : mget st.sessions sid with
  | none => rfl
  | some session =>
  dsimp only
  by_cases h3 : session.status ≠ SessionStatus.recording
  · rw [if_pos h3]
  · rw [if_neg h3]
    cases h4 : mget st.pendingNetworkRequests sid with
    | none => rfl
    | some pm =>
    dsimp only
    have h5 : mget pm params.requestId = none := by
      have hh := h sid h1
      unfold pendingLookup at hh
      rw [h4] at hh
      simpa using hh
    rw [h5]

/-- Symmetric no-op for a load failure with no matching pending entry. -/
theorem handleNetworkLoadingFailed_noop_of_missing (st : BgState) (tabId : Int)
    (params : LoadingFailedParams) (now : Int)
    (h : ∀ sid, mget st.tabIdToSessionId tabId = some sid →
      pendingLookup st sid params.requestId = none) :
    handleNetworkLoadingFailed st tabId params now = st := by
  unfold handleNetworkLoadingFailed
  cases h1 : mget st.tabIdToSessionId tabId with
  | none => rfl
  | some sid =>
  dsimp only
  cases h2 : mget st.sessions sid with
  | none => rfl
  | some session =>
  dsimp only
  by_cases h3 : session.status ≠ SessionStatus.recording
  · rw [if_pos h3]
  · rw [if_neg h3]
    cases h4 : mget st.pendingNetworkRequests sid with
    | none => rfl
    | some pm =>
    dsimp only
    have h5 : mget pm params.requestId = none := by
      have hh := h sid h1
      unfold pendingLookup at hh
      rw [h4] at hh
      simpa using hh
    rw [h5]

theorem shouldInclude_iff (k : ResourceKind) (s : Int) :
    shouldIncludeNetworkEvent k s ↔
      (k = .XHR ∨ k = .Fetch ∨ k = .WebSocket ∨ k = .Document ∨ s ≥ 400) := by
  unfold shouldIncludeNetworkEvent
  constructor
  · rintro (h | h | h | h | ⟨h0, h4⟩) <;> tauto
  · rintro (h | h | h | h | h4)
    · exact Or.inl h
    · exact Or.inr (Or.inl h)
    · exact Or.inr (Or.inr (Or.inl h))
    · exact Or.inr (Or.inr (Or.inr (Or.inl h)))
    · exact Or.inr (Or.inr (Or.inr (Or.inr ⟨by omega, h4⟩)))

/-- C7: a correlated completed network event is retained — appended to the
session's accepted-network ledger (batches then buffer) with its counter
bumped — if and only if its resource kind is XHR, Fetch, WebSocket or
Document, or its status code is ≥ 400; and in every outcome the pending entry
is removed from the correlation table.  In particular an Image response with
status 200 is dropped after correlation while an Image response with status
404 is retained (see the witness). -/
theorem c7_retention_filter (st : BgState) (tabId : Int)
    (params : ResponseReceivedParams) (now : Int) (sid : String)
    (session : SessionState) (pendingRequests : List (String × PartialNetworkEvent))
    (partialEvent : PartialNetworkEvent) (buffer : List NetworkEvent)
    (h1 : mget st.tabIdToSessionId tabId = some sid)
    (h2 : mget st.sessions sid = some session)
    (h3 : session.status = .recording)
    (h4 : mget st.pendingNetworkRequests sid = some pendingRequests)
    (h5 : mget pendingRequests params.requestId = some partialEvent)
    (h6 : jsTruthyStr partialEvent.requestId = true)
    (h7 : jsTruthyStr partialEvent.url = true)
    (h8 : jsTruthyStr partialEvent.method = true)
    (h9 : mget st.networkEventBuffers sid = some buffer) :
    ((networkLedger (handleNetworkResponse st tabId params now) sid =
        networkLedger st sid ++ [mkCompletedEvent partialEvent params] ∧
      (mget (handleNetworkResponse st tabId params now).sessions sid).map
          SessionState.networkEventCount = some (session.networkEventCount + 1)) ↔
      (params.kind = .XHR ∨ params.kind = .Fetch ∨ params.kind = .WebSocket ∨
       params.kind = .Document ∨ params.status ≥ 400)) ∧
    pendingLookup (handleNetworkResponse st tabId params now) sid params.requestId = none := by
  have hstep : handleNetworkResponse st tabId params now =
      (if ¬ shouldIncludeNetworkEvent params.kind (mkCompletedEvent partialEvent params).status then
        { st with pendingNetworkRequests := (mset st.pendingNetworkRequests sid
            (mdel pendingRequests params.requestId)) }
      else
        let st' :=
          let buffer' := buffer ++ [mkCompletedEvent partialEvent params]
          let st' := { st with
            networkEventBuffers := mset st.networkEventBuffers sid buffer',
            sessions := (mset st.sessions sid
              { session with networkEventCount := session.networkEventCount + 1 }) }
          if buffer'.length ≥ 50 then flushTelemetryBuffers st' sid now else st'
        { st' with pendingNetworkRequests := (mset st'.pendingNetworkRequests sid
            (mdel ((mget st'.pendingNetworkRequests sid).getD [])
              params.requestId)) }) := by
    unfold handleNetworkResponse
    rw [h1]
    dsimp only
    rw [h2]
    dsimp only
    rw [if_neg (fun hne => hne h3)]
    rw [h4]
    dsimp only
    rw [h5]
    dsimp only
    rw [if_neg (fun hne => hne ⟨h6, h7, h8⟩)]
    rw [h9]
  have hpendIrrel : ∀ (s : BgState) (p : List (String × List (String × PartialNetworkEvent))) (sid' : String),
      networkLedger { s with pendingNetworkRequests := p } sid' = networkLedger s sid' :=
    fun _ _ _ => rfl
  rw [hstep]
  by_cases hinc : shouldIncludeNetworkEvent params.kind (mkCompletedEvent partialEvent params).status
  · rw [if_neg (not_not_intro hinc)]
    dsimp only
    by_cases hlen : (buffer ++ [mkCompletedEvent partialEvent params]).length ≥ 50
    · rw [if_pos hlen]
      have hled : networkLedger { st with
            networkEventBuffers := mset st.networkEventBuffers sid
              (buffer ++ [mkCompletedEvent partialEvent params]),
            sessions := (mset st.sessions sid
              { session with networkEventCount := session.networkEventCount + 1 }) } sid =
          networkLedger st sid ++ [mkCompletedEvent partialEvent params] := by
        unfold networkLedger
        dsimp only
        rw [mget_mset_self, h9]
        dsimp only [Option.getD_some]
        exact (List.append_assoc _ _ _).symm
      refine ⟨iff_of_true ⟨?_, ?_⟩ ?_, ?_⟩
      · rw [hpendIrrel, networkLedger_flush, hled]
      · show (mget (flushTelemetryBuffers _ sid now).sessions sid).map _ = _
        rw [flushTelemetryBuffers_sessions]
        dsimp only
        rw [mget_mset_self]
        rfl
      · exact (shouldInclude_iff _ _).mp hinc
      · unfold pendingLookup
        dsimp only
        rw [mget_mset_self]
        exact mget_mdel_self _ _
    · rw [if_neg hlen]
      refine ⟨iff_of_true ⟨?_, ?_⟩ ?_, ?_⟩
      · rw [hpendIrrel]
        unfold networkLedger
        dsimp only
        rw [mget_mset_self, h9]
        dsimp only [Option.getD_some]
        exact (List.append_assoc _ _ _).symm
      · show (mget (mset st.sessions sid _) sid).map _ = _
        rw [mget_mset_self]
        rfl
      · exact (shouldInclude_iff _ _).mp hinc
      · unfold pendingLookup
        dsimp only
        rw [mget_mset_self]
        exact mget_mdel_self _ _
  · rw [if_pos hinc]
    refine ⟨iff_of_false ?_ ?_, ?_⟩
    · rintro ⟨hl, -⟩
      rw [hpendIrrel] at hl
      simp at hl
    · intro hc
      exact hinc ((shouldInclude_iff _ _).mpr hc)
    · unfold pendingLookup
      dsimp only
      rw [mget_mset_self]
      exact mget_mdel_self _ _

/-- The pending entry `probeSt` holds for `r1`: exactly what
`handleNetworkRequestWillBeSent` stores for a GET captured at CDP wall time
1 s in a session with T₀ = 1000 (video offset `round(1 · 1000) − 1000 = 0`). -/
def probePartial : PartialNetworkEvent :=
  { requestId := some "r1"
    url := some "https://api.example.test/a"
    method := some "GET"
    headers := some []
    postData := none
    timestamp := some 1
    wallTime := some 1
    videoTimestamp := some 0 }

/-- The recording-session state used as concrete input for the
correlation-table witnesses: the state after start and media-ready for tab 1
at T₀ = 1000, with the pending entry for `r1` in its correlation table. -/
def probeSt : BgState :=
  { bgRun [.start 1 1000 false false true, .mediaReady "1-1000"] with
    pendingNetworkRequests := [("1-1000", [("r1", probePartial)])] }

/-- The session record registered in `probeSt`. -/
def probeSession : SessionState :=
  { sessionId := "1-1000"
    tabId := 1
    status := .recording
    sessionStartTime := 1000
    debuggerAttached := true }

/-- Witness for C7: an Image response with status 404 is retained — the ledger
grows by exactly the completed event and the counter is bumped — and the
pending entry is gone; an Image response with status 200 is dropped with no
ledger growth, and its pending entry is gone too. -/
theorem c7_witness :
    (networkLedger (handleNetworkResponse probeSt 1
        { requestId := "r1", timestamp := 2, kind := .Image, status := 404,
          statusText := "Not Found", responseHeaders := [], mimeType := "image/png" } 2000)
        "1-1000" =
      networkLedger probeSt "1-1000" ++
        [mkCompletedEvent probePartial
          { requestId := "r1", timestamp := 2, kind := .Image, status := 404,
            statusText := "Not Found", responseHeaders := [], mimeType := "image/png" }]) ∧
    pendingLookup (handleNetworkResponse probeSt 1
        { requestId := "r1", timestamp := 2, kind := .Image, status := 404,
          statusText := "Not Found", responseHeaders := [], mimeType := "image/png" } 2000)
      "1-1000" "r1" = none ∧
    ¬ (networkLedger (handleNetworkResponse probeSt 1
        { requestId := "r1", timestamp := 2, kind := .Image, status := 200,
          statusText := "OK", responseHeaders := [], mimeType := "image/png" } 2000)
        "1-1000" =
      networkLedger probeSt "1-1000" ++
        [mkCompletedEvent probePartial
          { requestId := "r1", timestamp := 2, kind := .Image, status := 200,
            statusText := "OK", responseHeaders := [], mimeType := "image/png" }]) ∧
    pendingLookup (handleNetworkResponse probeSt 1
        { requestId := "r1", timestamp := 2, kind := .Image, status := 200,
          statusText := "OK", responseHeaders := [], mimeType := "image/png" } 2000)
      "1-1000" "r1" = none := by
  have h404 := c7_retention_filter probeSt 1
    { requestId := "r1", timestamp := 2, kind := .Image, status := 404,
      statusText := "Not Found", responseHeaders := [], mimeType := "image/png" } 2000
    "1-1000" probeSession [("r1", probePartial)] probePartial []
    (by decide) (by decide) (by decide) (by decide) (by decide)
    (by decide) (by decide) (by decide) (by decide)
  have h200 := c7_retention_filter probeSt 1
    { requestId := "r1", timestamp := 2, kind := .Image, status := 200,
      statusText := "OK", responseHeaders := [], mimeType := "image/png" } 2000
    "1-1000" probeSession [("r1", probePartial)] probePartial []
    (by decide) (by decide) (by decide) (by decide) (by decide)
    (by decide) (by decide) (by decide) (by decide)
  exact ⟨(h404.1.mpr (by decide)).1, h404.2, by decide, h200.2⟩

/-- C9: whenever the response-received or load-failed handler finds a pending
entry for a request id, the entry is deleted from the correlation table in
every outcome branch; consequently later responses or failures for the same
request id find nothing and leave the state untouched, so each request-sent
occurrence yields at most one completed event. -/
theorem c9_pending_consumed_once (st : BgState) (tabId : Int)
    (params : ResponseReceivedParams) (fparams : LoadingFailedParams)
    (now now' : Int) (sid : String) (session : SessionState)
    (pendingRequests : List (String × PartialNetworkEvent))
    (partialEvent : PartialNetworkEvent)
    (h1 : mget st.tabIdToSessionId tabId = some sid)
    (h2 : mget st.sessions sid = some session)
    (h3 : session.status = .recording)
    (h4 : mget st.pendingNetworkRequests sid = some pendingRequests)
    (h5 : mget pendingRequests params.requestId = some partialEvent)
    (hrid : fparams.requestId = params.requestId) :
    pendingLookup (handleNetworkResponse st tabId params now) sid
      params.requestId = none ∧
    pendingLookup (handleNetworkLoadingFailed st tabId fparams now) sid
      fparams.requestId = none ∧
    handleNetworkResponse (handleNetworkResponse st tabId params now)
        tabId params now' =
      handleNetworkResponse st tabId params now ∧
    handleNetworkLoadingFailed (handleNetworkResponse st tabId params now)
        tabId fparams now' =
      handleNetworkResponse st tabId params now := by
  have hresp : pendingLookup (handleNetworkResponse st tabId params now) sid
      params.requestId = none := by
    unfold handleNetworkResponse
    rw [h1]
    dsimp only
    rw [h2]
    dsimp only
    rw [if_neg (fun hne => hne h3)]
    rw [h4]
    dsimp only
    rw [h5]
    dsimp only
    unfold pendingLookup
    repeat' (split <;> (try dsimp only))
    all_goals (try (rw [flushTelemetryBuffers_pending]))
    all_goals simp [mget_mset_self, mget_mdel_self]
  have hfail : pendingLookup (handleNetworkLoadingFailed st tabId fparams now) sid
      fparams.requestId = none := by
    unfold handleNetworkLoadingFailed
    rw [h1]
    dsimp only
    rw [h2]
    dsimp only
    rw [if_neg (fun hne => hne h3)]
    rw [h4]
    dsimp only
    rw [hrid, h5]
    dsimp only
    unfold pendingLookup
    repeat' (split <;> (try dsimp only))
    all_goals (try (rw [flushTelemetryBuffers_pending]))
    all_goals simp [mget_mset_self, mget_mdel_self]
  refine ⟨hresp, hfail, ?_, ?_⟩
  · refine handleNetworkResponse_noop_of_missing _ _ _ _ ?_
    intro sid' hsid'
    rw [handleNetworkResponse_tabIndex, h1] at hsid'
    cases hsid'
    exact hresp
  · refine handleNetworkLoadingFailed_noop_of_missing _ _ _ _ ?_
    intro sid' hsid'
    rw [handleNetworkResponse_tabIndex, h1] at hsid'
    cases hsid'
    rw [hrid]
    exact hresp

/-- The XHR response used by the C9 witness. -/
def c9Resp : ResponseReceivedParams :=
  { requestId := "r1"
    timestamp := 2
    kind := .XHR
    status := 200
    statusText := "OK"
    responseHeaders := []
    mimeType := "application/json" }

/-- Witness for C9 on the concrete probe state: the pending entry for `r1` is
gone after the response, and replaying the same response (or a late failure)
is a no-op. -/
theorem c9_witness :
    pendingLookup (handleNetworkResponse probeSt 1 c9Resp 2000) "1-1000" "r1" = none ∧
    handleNetworkResponse (handleNetworkResponse probeSt 1 c9Resp 2000) 1 c9Resp 3000 =
      handleNetworkResponse probeSt 1 c9Resp 2000 ∧
    handleNetworkLoadingFailed (handleNetworkResponse probeSt 1 c9Resp 2000) 1
        { requestId := "r1", timestamp := 3, errorText := "net::ERR_FAILED" } 3000 =
      handleNetworkResponse probeSt 1 c9Resp 2000 := by
  have h := c9_pending_consumed_once probeSt 1 c9Resp
    { requestId := "r1", timestamp := 3, errorText := "net::ERR_FAILED" } 2000 3000
    "1-1000" probeSession [("r1", probePartial)] probePartial
    (by decide) (by decide) (by decide) (by decide) (by decide) (by decide)
  exact ⟨h.1, h.2.2.1, h.2.2.2⟩

/-- C8: during a flush, the TTL sweep removes exactly the pending entries
whose own captured wall-clock reading is more than 2 minutes (120000 ms)
older than the sweep's `Date.now()` reading, and keeps every younger entry;
an evicted request id can never yield a completed event — a response for it
arriving after the sweep leaves the state unchanged. -/
theorem c8_ttl_sweep (st : BgState) (sid : String) (now : Int)
    (pendingMap : List (String × PartialNetworkEvent))
    (h : mget st.pendingNetworkRequests sid = some pendingMap)
    (hn : (pendingMap.map Prod.fst).Nodup) :
    (∀ rid pe, mget pendingMap rid = some pe →
      pendingLookup (flushTelemetryBuffers st sid now) sid rid =
        (if (now : Rat) - (pe.wallTime.getD 0) * 1000 > 120000 then none
         else some pe)) ∧
    (∀ (tabId : Int) (params : ResponseReceivedParams) (pe : PartialNetworkEvent)
        (now' : Int),
      mget st.tabIdToSessionId tabId = some sid →
      mget pendingMap params.requestId = some pe →
      (now : Rat) - (pe.wallTime.getD 0) * 1000 > 120000 →
      handleNetworkResponse (flushTelemetryBuffers st sid now) tabId params now' =
        flushTelemetryBuffers st sid now) := by
  have hfirst : ∀ rid pe, mget pendingMap rid = some pe →
      pendingLookup (flushTelemetryBuffers st sid now) sid rid =
        (if (now : Rat) - (pe.wallTime.getD 0) * 1000 > 120000 then none
         else some pe) := by
    intro rid pe hpe
    unfold pendingLookup
    rw [flushTelemetryBuffers_pending, h]
    dsimp only
    rw [mget_mset_self]
    dsimp only [Option.getD_some]
    rw [mget_filter_of_nodup _ _ _ hn, hpe]
    by_cases hexp : (now : Rat) - (pe.wallTime.getD 0) * 1000 > 120000 <;>
      simp [hexp]
  refine ⟨hfirst, ?_⟩
  intro tabId params pe now' htab hpe hexp
  refine handleNetworkResponse_noop_of_missing _ _ _ _ ?_
  intro sid' hsid'
  rw [flushTelemetryBuffers_tabIndex, htab] at hsid'
  cases hsid'
  rw [hfirst params.requestId pe hpe, if_pos hexp]

/-- A younger pending entry (captured at CDP wall time 199 s) used by the C8
witness. -/
def c8Fresh : PartialNetworkEvent :=
  { requestId := some "r2"
    url := some "https://api.example.test/b"
    method := some "GET"
    headers := some []
    postData := none
    timestamp := some 199
    wallTime := some 199
    videoTimestamp := some 198000 }

/-- The C8 witness state: a recording session whose correlation table holds a
stale entry `r1` (wall time 1 s) and a fresh entry `r2` (wall time 199 s). -/
def c8St : BgState :=
  { bgRun [.start 1 1000 false false true, .mediaReady "1-1000"] with
    pendingNetworkRequests := [("1-1000", [("r1", probePartial), ("r2", c8Fresh)])] }

/-- Witness for C8 at sweep time 200000 ms: `r1` (1000 ms old reading,
199000 ms stale) is evicted, `r2` (1000 ms stale) is kept, and a response for
the evicted `r1` after the sweep changes nothing. -/
theorem c8_witness :
    pendingLookup (flushTelemetryBuffers c8St "1-1000" 200000) "1-1000" "r1" = none ∧
    pendingLookup (flushTelemetryBuffers c8St "1-1000" 200000) "1-1000" "r2" =
      some c8Fresh ∧
    handleNetworkResponse (flushTelemetryBuffers c8St "1-1000" 200000) 1 c9Resp 200001 =
      flushTelemetryBuffers c8St "1-1000" 200000 := by
  have h := c8_ttl_sweep c8St "1-1000" 200000 [("r1", probePartial), ("r2", c8Fresh)]
    (by decide) (by decide)
  refine ⟨?_, ?_, ?_⟩
  · rw [h.1 "r1" probePartial (by decide),
      if_pos (by norm_num [probePartial, Option.getD_some])]
  · rw [h.1 "r2" c8Fresh (by decide),
      if_neg (by norm_num [c8Fresh, Option.getD_some])]
  · exact h.2 1 c9Resp probePartial 200001 (by decide) (by decide)
      (by norm_num [probePartial, Option.getD_some])

/-! ## Claim C5 — video-offset arithmetic (spec-modelled sync.ts) -/

/-- C5: the video-offset computation is `w - T0` for millisecond wall clocks
and `round(w·1000) - T0` for fractional-second wall clocks, may be negative
(`w < T0`), and the handlers store exactly this signed value — no clamping —
both on the network path (`handleNetworkRequestWillBeSent`) and the console
path (`handleConsoleAPICalled`). -/
theorem c5_video_offset_unclamped :
    (∀ (T0 w : Int), calculateVideoTimestamp T0 w = w - T0) ∧
    (∀ (T0 w : Int), w < T0 → calculateVideoTimestamp T0 w < 0) ∧
    (∀ (ws : Rat) (T0 : Int),
      cdpWallTimeToVideoOffset ws T0 = round (ws * 1000) - T0) ∧
    (∀ (st : BgState) (tabId : Int) (params : RequestWillBeSentParams)
       (sid : String) (session : SessionState)
       (pendingRequests : List (String × PartialNetworkEvent)),
      mget st.tabIdToSessionId tabId = some sid →
      mget st.sessions sid = some session →
      session.status = .recording →
      mget st.pendingNetworkRequests sid = some pendingRequests →
      pendingLookup (handleNetworkRequestWillBeSent st tabId params) sid
          params.requestId =
        some { requestId := some params.requestId
               url := some params.url
               method := some params.method
               headers := some (sanitizeHeaders params.headers)
               postData := params.postData
               timestamp := some params.timestamp
               wallTime := some params.wallTime
               videoTimestamp := some (cdpWallTimeToVideoOffset params.wallTime
                 session.sessionStartTime) }) ∧
    (∀ (st : BgState) (tabId : Int) (params : ConsoleAPICalledParams) (now : Int)
       (sid : String) (session : SessionState) (buffer : List ConsoleEvent),
      mget st.tabIdToSessionId tabId = some sid →
      mget st.sessions sid = some session →
      session.status = .recording →
      mget st.consoleEventBuffers sid = some buffer →
      buffer.length + 1 < 50 →
      mget (handleConsoleAPICalled st tabId params now).consoleEventBuffers sid =
        some (buffer ++
          [{ level := mapConsoleLevel params.kind
             text := params.argsText
             timestamp := params.timestamp
             wallTime := now
             videoTimestamp := calculateVideoTimestamp session.sessionStartTime now }])) := by
  refine ⟨fun T0 w => rfl, ?_, fun ws T0 => rfl, ?_, ?_⟩
  · intro T0 w h
    unfold calculateVideoTimestamp
    omega
  · intro st tabId params sid session pendingRequests h1 h2 h3 h4
    unfold handleNetworkRequestWillBeSent
    rw [h1]
    dsimp only
    rw [h2]
    dsimp only
    rw [if_neg (fun hne => hne h3)]
    rw [h4]
    unfold pendingLookup
    dsimp only
    rw [mget_mset_self]
    dsimp only [Option.getD_some]
    rw [mget_mset_self]
  · intro st tabId params now sid session buffer h1 h2 h3 h4 hlen
    unfold handleConsoleAPICalled
    rw [h1]
    dsimp only
    rw [h2]
    dsimp only
    rw [if_neg (fun hne => hne h3)]
    rw [h4]
    dsimp only
    rw [if_neg (by simpa using Nat.not_le_of_lt hlen)]
    dsimp only
    rw [mget_mset_self]

/-- Witness for C5, matching the spec's end-to-end example: T₀ = 1000, a
request sent at CDP wall time 1.05 s gets video offset
`round(1050) − 1000 = 50`; an event observed 100 ms before T₀ gets offset
−100, not clamped to 0. -/
theorem c5_witness :
    calculateVideoTimestamp 1000 900 = -100 ∧
    calculateVideoTimestamp 1000 900 < 0 ∧
    cdpWallTimeToVideoOffset (21 / 20) 1000 = 50 ∧
    pendingLookup (handleNetworkRequestWillBeSent
        (bgRun [.start 1 1000 false false true, .mediaReady "1-1000"]) 1
        { requestId := "r1", url := "https://api.example.test/a", method := "GET",
          headers := [], timestamp := 1, wallTime := 21 / 20 }) "1-1000" "r1" =
      some { requestId := some "r1"
             url := some "https://api.example.test/a"
             method := some "GET"
             headers := some []
             postData := none
             timestamp := some 1
             wallTime := some (21 / 20)
             videoTimestamp := some (cdpWallTimeToVideoOffset (21 / 20) 1000) } := by
  have h := c5_video_offset_unclamped
  refine ⟨by decide, h.2.1 1000 900 (by decide), ?_, ?_⟩
  · rw [h.2.2.1]
    norm_num
  · have h4 := h.2.2.2.1 (bgRun [.start 1 1000 false false true, .mediaReady "1-1000"]) 1
      { requestId := "r1", url := "https://api.example.test/a", method := "GET",
        headers := [], timestamp := 1, wallTime := 21 / 20 }
      "1-1000" probeSession [] (by decide) (by decide) (by decide) (by decide)
    rw [h4]
    rfl

/-! ## Claim C4 — batch layout and contiguous indices

One (session, channel) projection of the buffer/flush pipeline
(`doFlushTelemetryBuffers` + `storeNetworkEventBatch`): the channel's
in-memory buffer, its next batch index (`networkBatchIndices.get(sessionId)
|| 0`, initialized to 0 by `handleMediaReady`), and the ordered log of
`(batchIndex, events)` batch writes the blob store receives.  The single
per-session flush guard keeps one flush's read-write-increment of the index
atomic with respect to other flushes, so a flush is one step. -/

structure ChannelState (α : Type) : Type where
  buffer : List α := []
  batchIndex : Nat := 0
  batches : List (Nat × List α) := []
deriving DecidableEq

/-- A channel operation: an accepted append, or a flush — splice the buffer,
write one batch at the current index when the splice is nonempty, then
increment the index (background.ts:1319-1342). -/
inductive ChannelOp (α : Type) : Type
  | append (e : α)
  | flush
deriving DecidableEq

def chanStep {α : Type} (s : ChannelState α) : ChannelOp α → ChannelState α
  | .append e => { s with buffer := s.buffer ++ [e] }
  | .flush =>
    if 0 < s.buffer.length then
      { buffer := []
        batchIndex := s.batchIndex + 1
        batches := s.batches ++ [(s.batchIndex, s.buffer)] }
    else s

/-- The channel state after a sequence of operations, from the state
`handleMediaReady` initializes (empty buffer, index 0, nothing stored). -/
def chanRun {α : Type} (ops : List (ChannelOp α)) : ChannelState α :=
  ops.foldl chanStep {}

theorem chanStep_contiguous {α : Type} (s : ChannelState α) (op : ChannelOp α)
    (h : s.batches.map Prod.fst = List.range s.batchIndex) :
    (chanStep s op).batches.map Prod.fst = List.range (chanStep s op).batchIndex := by
  cases op with
  | append e => exact h
  | flush =>
    unfold chanStep
    by_cases hb : 0 < s.buffer.length
    · rw [if_pos hb]
      simp only [List.map_append, List.map_cons, List.map_nil, h]
      exact (List.range_succ _).symm
    · rw [if_neg hb]
      exact h

theorem chanRun_contiguous {α : Type} :
    ∀ (ops : List (ChannelOp α)) (s : ChannelState α),
      s.batches.map Prod.fst = List.range s.batchIndex →
      (ops.foldl chanStep s).batches.map Prod.fst =
        List.range (ops.foldl chanStep s).batchIndex
  | [], _, h => h
  | op :: rest, s, h =>
    chanRun_contiguous rest (chanStep s op) (chanStep_contiguous s op h)

/-- C4: flushing a channel whose buffer holds exactly `k ≥ 1` events writes
exactly one new batch holding exactly those `k` events in buffered order, at
index one past the previous flush's; and over any operation sequence from the
session's start, the batch indices written form the contiguous run
`0, 1, …, batchIndex − 1`. -/
theorem c4_batch_contiguity {α : Type} :
    (∀ (s : ChannelState α) (k : Nat), s.buffer.length = k → 1 ≤ k →
      chanStep s .flush =
        { buffer := []
          batchIndex := s.batchIndex + 1
          batches := s.batches ++ [(s.batchIndex, s.buffer)] }) ∧
    (∀ ops : List (ChannelOp α),
      (chanRun ops).batches.map Prod.fst = List.range (chanRun ops).batchIndex) := by
  constructor
  · intro s k hk h1
    unfold chanStep
    rw [if_pos (by omega)]
  · intro ops
    exact chanRun_contiguous ops {} (by simp)

/-- Witness for C4: a channel holding three buffered events at index 2 flushes
them as batch 2 exactly; and a concrete run's stored indices are `[0, 1]`. -/
theorem c4_witness :
    chanStep (⟨[7, 8, 9], 2, [(0, [1]), (1, [2])]⟩ : ChannelState Nat) .flush =
      ⟨[], 3, [(0, [1]), (1, [2]), (2, [7, 8, 9])]⟩ ∧
    (chanRun [ChannelOp.append 5, .flush, .flush, .append 6, .append 7,
        .flush]).batches.map Prod.fst =
      List.range (chanRun [ChannelOp.append 5, .flush, .flush, .append 6,
        .append 7, .flush]).batchIndex := by
  constructor
  · exact (c4_batch_contiguity.1 ⟨[7, 8, 9], 2, [(0, [1]), (1, [2])]⟩ 3
      (by decide) (by decide))
  · exact c4_batch_contiguity.2 _

/-! ## Claims C1 & C6 — the flush pipeline under interleaving

Small-step model of one session's `flushTelemetryBuffers` /
`doFlushTelemetryBuffers` and of the stop path of `handleMediaStopped`, with
the JS event-loop suspension points explicit.  `flushCall` is the synchronous
prefix of a call to `flushTelemetryBuffers`: if a flush is already in flight
(`flushInProgress` holds the session's promise) the caller awaits that same
promise and changes nothing; otherwise all three channel buffers are spliced
synchronously into the in-flight capture before any asynchronous persistence
starts.  `writeDone` is the completion of the awaited batch writes: each
nonempty captured channel becomes one stored batch and the guard is released.
`stopBegin` is the synchronous prefix of `handleMediaStopped` (the periodic
timer is disarmed, then the final `flushTelemetryBuffers` call runs its
synchronous prefix); `stopEnd` is its continuation once the awaited flush
promise resolves: the buffers are torn down.  Appends (the CDP handlers) stay
enabled until teardown, because the session status remains 'recording' until
after the final flush.  The ghost fields `netAcc`/`conAcc`/`domAcc` record
every event ever accepted into a buffer. -/

structure FlushSys (α : Type) : Type where
  netBuf : List α := []
  conBuf : List α := []
  domBuf : List α := []
  inFlight : Option (List α × List α × List α) := none
  netStore : List (List α) := []
  conStore : List (List α) := []
  domStore : List (List α) := []
  timer : Bool := true
  stopping : Bool := false
  torn : Bool := false
  netAcc : List α := []
  conAcc : List α := []
  domAcc : List α := []
deriving DecidableEq

inductive FlushAct (α : Type) : Type
  | appendNet (e : α)
  | appendCon (e : α)
  | appendDom (e : α)
  | flushCall
  | writeDone
  | stopBegin
  | stopEnd
deriving DecidableEq

/-- The synchronous prefix of `flushTelemetryBuffers` (background.ts:
1293-1300 and the splice 1319-1327): join if in flight, else swap all three
buffers into the capture. -/
def flushCallStep {α : Type} (s : FlushSys α) : FlushSys α :=
  match s.inFlight with
  | some _ => s
  | none =>
    { s with
      inFlight := some (s.netBuf, s.conBuf, s.domBuf)
      netBuf := []
      conBuf := []
      domBuf := [] }

def sysStep {α : Type} (s : FlushSys α) : FlushAct α → FlushSys α
  | .appendNet e =>
    if s.torn then s
    else { s with netBuf := s.netBuf ++ [e], netAcc := s.netAcc ++ [e] }
  | .appendCon e =>
    if s.torn then s
    else { s with conBuf := s.conBuf ++ [e], conAcc := s.conAcc ++ [e] }
  | .appendDom e =>
    if s.torn then s
    else { s with domBuf := s.domBuf ++ [e], domAcc := s.domAcc ++ [e] }
  | .flushCall => flushCallStep s
  | .writeDone =>
    match s.inFlight with
    | none => s
    | some (n, c, d) =>
      { s with
        inFlight := none
        netStore := s.netStore ++ (if n.length = 0 then [] else [n])
        conStore := s.conStore ++ (if c.length = 0 then [] else [c])
        domStore := s.domStore ++ (if d.length = 0 then [] else [d]) }
  | .stopBegin => { flushCallStep { s with timer := false } with stopping := true }
  | .stopEnd =>
    if s.stopping && s.inFlight.isNone then
      { s with torn := true, netBuf := [], conBuf := [], domBuf := [] }
    else s

/-- The system state after a sequence of interleaved steps, from the state
`handleMediaReady` arms (empty buffers, timer on, no flush in flight). -/
def sysRun {α : Type} (tr : List (FlushAct α)) : FlushSys α :=
  tr.foldl sysStep {}

/-- The network part of the in-flight capture, if any. -/
def inflightNet {α : Type} (s : FlushSys α) : List α :=
  match s.inFlight with
  | some t => t.1
  | none => []

/-- The console part of the in-flight capture, if any. -/
def inflightCon {α : Type} (s : FlushSys α) : List α :=
  match s.inFlight with
  | some t => t.2.1
  | none => []

/-- The DOM part of the in-flight capture, if any. -/
def inflightDom {α : Type} (s : FlushSys α) : List α :=
  match s.inFlight with
  | some t => t.2.2
  | none => []

/-- Acts of the flush pipeline proper (no stop path). -/
def isFlushAct {α : Type} : FlushAct α → Bool
  | .stopBegin => false
  | .stopEnd => false
  | _ => true

/-- Append acts (CDP event deliveries). -/
def isAppendAct {α : Type} : FlushAct α → Bool
  | .appendNet _ => true
  | .appendCon _ => true
  | .appendDom _ => true
  | _ => false

/-- The accounting invariant: per channel, persisted batches, the in-flight
capture and the live buffer together hold exactly the accepted events in
order. -/
def SysAccounted {α : Type} (s : FlushSys α) : Prop :=
  s.netStore.flatten ++ inflightNet s ++ s.netBuf = s.netAcc ∧
  s.conStore.flatten ++ inflightCon s ++ s.conBuf = s.conAcc ∧
  s.domStore.flatten ++ inflightDom s ++ s.domBuf = s.domAcc

theorem inflightNet_none {α : Type} {s : FlushSys α} (h : s.inFlight = none) :
    inflightNet s = [] := by
  unfold inflightNet
  rw [h]

theorem inflightCon_none {α : Type} {s : FlushSys α} (h : s.inFlight = none) :
    inflightCon s = [] := by
  unfold inflightCon
  rw [h]

theorem inflightDom_none {α : Type} {s : FlushSys α} (h : s.inFlight = none) :
    inflightDom s = [] := by
  unfold inflightDom
  rw [h]

theorem inflightNet_some {α : Type} {s : FlushSys α} {t : List α × List α × List α}
    (h : s.inFlight = some t) : inflightNet s = t.1 := by
  unfold inflightNet
  rw [h]

theorem inflightCon_some {α : Type} {s : FlushSys α} {t : List α × List α × List α}
    (h : s.inFlight = some t) : inflightCon s = t.2.1 := by
  unfold inflightCon
  rw [h]

theorem inflightDom_some {α : Type} {s : FlushSys α} {t : List α × List α × List α}
    (h : s.inFlight = some t) : inflightDom s = t.2.2 := by
  unfold inflightDom
  rw [h]

theorem accounted_append {α : Type} {store : List (List α)} {cap buf acc : List α} (e : α)
    (h : store.flatten ++ cap ++ buf = acc) :
    store.flatten ++ cap ++ (buf ++ [e]) = acc ++ [e] := by
  rw [← h]
  simp [List.append_assoc]

theorem accounted_swap {α : Type} {store : List (List α)} {buf acc : List α}
    (h : store.flatten ++ [] ++ buf = acc) : store.flatten ++ buf ++ [] = acc := by
  simpa using h

theorem accounted_write {α : Type} {store : List (List α)} {n buf acc : List α}
    (h : store.flatten ++ n ++ buf = acc) :
    (store ++ (if n.length = 0 then [] else [n])).flatten ++ [] ++ buf = acc := by
  by_cases hnil : n.length = 0
  · rw [if_pos hnil]
    rw [List.length_eq_zero] at hnil
    subst hnil
    simpa using h
  · rw [if_neg hnil]
    rw [List.flatten_append]
    simpa [List.append_assoc] using h

theorem sysStep_accounted {α : Type} (s : FlushSys α) (a : FlushAct α)
    (ha : a ≠ .stopEnd) (hP : SysAccounted s) : SysAccounted (sysStep s a) := by
  obtain ⟨hn, hc, hd⟩ := hP
  cases a with
  | appendNet e =>
    unfold sysStep
    dsimp only
    by_cases ht : s.torn = true
    · rw [if_pos ht]
      exact ⟨hn, hc, hd⟩
    · rw [if_neg ht]
      exact ⟨accounted_append e hn, hc, hd⟩
  | appendCon e =>
    unfold sysStep
    dsimp only
    by_cases ht : s.torn = true
    · rw [if_pos ht]
      exact ⟨hn, hc, hd⟩
    · rw [if_neg ht]
      exact ⟨hn, accounted_append e hc, hd⟩
  | appendDom e =>
    unfold sysStep
    dsimp only
    by_cases ht : s.torn = true
    · rw [if_pos ht]
      exact ⟨hn, hc, hd⟩
    · rw [if_neg ht]
      exact ⟨hn, hc, accounted_append e hd⟩
  | flushCall =>
    unfold sysStep
    dsimp only
    unfold flushCallStep
    cases hf : s.inFlight with
    | some t =>
      dsimp only
      exact ⟨hn, hc, hd⟩
    | none =>
      dsimp only
      rw [inflightNet_none hf] at hn
      rw [inflightCon_none hf] at hc
      rw [inflightDom_none hf] at hd
      exact ⟨accounted_swap hn, accounted_swap hc, accounted_swap hd⟩
  | writeDone =>
    unfold sysStep
    dsimp only
    cases hf : s.inFlight with
    | none =>
      dsimp only
      exact ⟨hn, hc, hd⟩
    | some t =>
      obtain ⟨n, c, d⟩ := t
      dsimp only
      have hn' : s.netStore.flatten ++ n ++ s.netBuf = s.netAcc := by
        rw [← hn]
        unfold inflightNet
        rw [hf]
      have hc' : s.conStore.flatten ++ c ++ s.conBuf = s.conAcc := by
        rw [← hc]
        unfold inflightCon
        rw [hf]
      have hd' : s.domStore.flatten ++ d ++ s.domBuf = s.domAcc := by
        rw [← hd]
        unfold inflightDom
        rw [hf]
      exact ⟨accounted_write hn', accounted_write hc', accounted_write hd'⟩
  | stopBegin =>
    unfold sysStep
    dsimp only
    unfold flushCallStep
    cases hf : s.inFlight with
    | some t =>
      dsimp only
      rw [inflightNet_some hf] at hn
      rw [inflightCon_some hf] at hc
      rw [inflightDom_some hf] at hd
      exact ⟨hn, hc, hd⟩
    | none =>
      dsimp only
      rw [inflightNet_none hf] at hn
      rw [inflightCon_none hf] at hc
      rw [inflightDom_none hf] at hd
      exact ⟨accounted_swap hn, accounted_swap hc, accounted_swap hd⟩
  | stopEnd => exact absurd rfl ha

theorem sysRun_accounted_aux {α : Type} :
    ∀ (tr : List (FlushAct α)) (s : FlushSys α),
      (∀ a ∈ tr, isFlushAct a = true) → SysAccounted s →
      SysAccounted (tr.foldl sysStep s)
  | [], _, _, h => h
  | a :: rest, s, hfl, h => by
    have ha : a ≠ FlushAct.stopEnd := by
      intro he
      have hh := hfl a (List.mem_cons_self _ _)
      rw [he] at hh
      simp [isFlushAct] at hh
    exact sysRun_accounted_aux rest (sysStep s a)
      (fun b hb => hfl b (List.mem_cons_of_mem _ hb))
      (sysStep_accounted s a ha h)

theorem sysRun_torn_aux {α : Type} :
    ∀ (tr : List (FlushAct α)) (s : FlushSys α),
      (∀ a ∈ tr, isFlushAct a = true) → (tr.foldl sysStep s).torn = s.torn
  | [], _, _ => rfl
  | a :: rest, s, hfl => by
    have hstep : (sysStep s a).torn = s.torn := by
      cases a with
      | appendNet e =>
        unfold sysStep
        dsimp only
        split <;> rfl
      | appendCon e =>
        unfold sysStep
        dsimp only
        split <;> rfl
      | appendDom e =>
        unfold sysStep
        dsimp only
        split <;> rfl
      | flushCall =>
        unfold sysStep flushCallStep
        dsimp only
        split <;> rfl
      | writeDone =>
        unfold sysStep
        dsimp only
        split
        · rfl
        · rfl
      | stopBegin =>
        have hh := hfl (FlushAct.stopBegin) (List.mem_cons_self _ _)
        simp [isFlushAct] at hh
      | stopEnd =>
        have hh := hfl (FlushAct.stopEnd) (List.mem_cons_self _ _)
        simp [isFlushAct] at hh
    rw [List.foldl_cons,
      sysRun_torn_aux rest (sysStep s a) (fun b hb => hfl b (List.mem_cons_of_mem _ hb)),
      hstep]

/-- C1: a flush call that finds a flush already in flight joins it — it
awaits the same in-flight operation and changes nothing; and along every
interleaving of appends, flush calls and write completions, each channel's
persisted batches, in-flight capture and live buffer together hold exactly
the accepted events in order.  Hence when no flush is in flight and the
buffer has been drained, the persisted batches hold every accepted event
exactly once — one persistence write per captured pending set, no event
written twice, none lost. -/
theorem c1_single_flight_flush :
    (∀ (α : Type) (s : FlushSys α), s.inFlight.isSome = true →
      sysStep s .flushCall = s) ∧
    (∀ (α : Type) (tr : List (FlushAct α)),
      (∀ a ∈ tr, isFlushAct a = true) → SysAccounted (sysRun tr)) ∧
    (∀ (α : Type) (tr : List (FlushAct α)),
      (∀ a ∈ tr, isFlushAct a = true) →
      (sysRun tr).inFlight = none → (sysRun tr).netBuf = [] →
      (sysRun tr).netStore.flatten = (sysRun tr).netAcc) := by
  refine ⟨?_, ?_, ?_⟩
  · intro α s h
    show flushCallStep s = s
    unfold flushCallStep
    cases hf : s.inFlight with
    | some t => rfl
    | none =>
      rw [hf] at h
      simp at h
  · intro α tr hfl
    exact sysRun_accounted_aux tr {} hfl ⟨rfl, rfl, rfl⟩
  · intro α tr hfl hif hbuf
    have h := (sysRun_accounted_aux tr {} hfl ⟨rfl, rfl, rfl⟩).1
    change (sysRun tr).netStore.flatten ++ inflightNet (sysRun tr) ++
      (sysRun tr).netBuf = (sysRun tr).netAcc at h
    rw [inflightNet_none hif, hbuf] at h
    simpa using h

/-- Witness for C1: a concrete state with a flush in flight is unchanged by a
second flush call, and a concrete interleaving (append, flush call, append
during the write, write completion) satisfies the accounting. -/
theorem c1_witness :
    ((⟨[], [], [], some ([1], [], []), [], [], [], true, false, false,
        [1], [], []⟩ : FlushSys Nat).inFlight.isSome = true ∧
      sysStep (⟨[], [], [], some ([1], [], []), [], [], [], true, false, false,
        [1], [], []⟩ : FlushSys Nat) .flushCall =
        ⟨[], [], [], some ([1], [], []), [], [], [], true, false, false,
          [1], [], []⟩) ∧
    (∀ a ∈ [FlushAct.appendNet 1, .flushCall, .appendNet 2, .writeDone],
      isFlushAct a = true) ∧
    SysAccounted (sysRun [FlushAct.appendNet 1, .flushCall, .appendNet 2, .writeDone]) := by
  refine ⟨⟨by decide, c1_single_flight_flush.1 Nat _ (by decide)⟩, by decide, ?_⟩
  exact c1_single_flight_flush.2.1 Nat _ (by decide)

/-- The quiesced stop-phase invariant: all buffers empty, per channel the
persisted batches plus the in-flight capture hold exactly the accepted
events, and after teardown nothing is left in flight. -/
def StopQuiesced {α : Type} (s : FlushSys α) : Prop :=
  s.netBuf = [] ∧ s.conBuf = [] ∧ s.domBuf = [] ∧
  (s.netStore.flatten ++ inflightNet s = s.netAcc) ∧
  (s.conStore.flatten ++ inflightCon s = s.conAcc) ∧
  (s.domStore.flatten ++ inflightDom s = s.domAcc) ∧
  (s.torn = true → inflightNet s = [] ∧ inflightCon s = [] ∧ inflightDom s = [])

theorem stopQuiesced_step {α : Type} (s : FlushSys α) (a : FlushAct α)
    (ha : isAppendAct a = false) (hQ : StopQuiesced s) :
    StopQuiesced (sysStep s a) := by
  obtain ⟨hbn, hbc, hbd, hn, hc, hd, ht⟩ := hQ
  cases a with
  | appendNet e => simp [isAppendAct] at ha
  | appendCon e => simp [isAppendAct] at ha
  | appendDom e => simp [isAppendAct] at ha
  | flushCall =>
    show StopQuiesced (flushCallStep s)
    unfold flushCallStep
    cases hf : s.inFlight with
    | some t => exact ⟨hbn, hbc, hbd, hn, hc, hd, ht⟩
    | none =>
      rw [inflightNet_none hf] at hn
      rw [inflightCon_none hf] at hc
      rw [inflightDom_none hf] at hd
      rw [hbn, hbc, hbd]
      exact ⟨rfl, rfl, rfl, hn, hc, hd, fun _ => ⟨rfl, rfl, rfl⟩⟩
  | writeDone =>
    unfold sysStep
    dsimp only
    cases hf : s.inFlight with
    | none =>
      dsimp only
      exact ⟨hbn, hbc, hbd, hn, hc, hd, ht⟩
    | some t =>
      obtain ⟨n, c, d⟩ := t
      dsimp only
      rw [inflightNet_some hf] at hn
      rw [inflightCon_some hf] at hc
      rw [inflightDom_some hf] at hd
      refine ⟨hbn, hbc, hbd, ?_, ?_, ?_, fun _ => ⟨rfl, rfl, rfl⟩⟩
      · rw [List.flatten_append, ← hn]
        by_cases hnil : n.length = 0
        · rw [if_pos hnil]
          rw [List.length_eq_zero] at hnil
          simp [hnil, inflightNet]
        · rw [if_neg hnil]
          simp [inflightNet]
      · rw [List.flatten_append, ← hc]
        by_cases hnil : c.length = 0
        · rw [if_pos hnil]
          rw [List.length_eq_zero] at hnil
          simp [hnil, inflightCon]
        · rw [if_neg hnil]
          simp [inflightCon]
      · rw [List.flatten_append, ← hd]
        by_cases hnil : d.length = 0
        · rw [if_pos hnil]
          rw [List.length_eq_zero] at hnil
          simp [hnil, inflightDom]
        · rw [if_neg hnil]
          simp [inflightDom]
  | stopBegin =>
    unfold sysStep
    dsimp only
    unfold flushCallStep
    cases hf : s.inFlight with
    | some t =>
      dsimp only
      rw [inflightNet_some hf] at hn
      rw [inflightCon_some hf] at hc
      rw [inflightDom_some hf] at hd
      refine ⟨hbn, hbc, hbd, ?_, ?_, ?_, ?_⟩
      · rw [inflightNet_some (s := _) (t := t) rfl]
        exact hn
      · rw [inflightCon_some (s := _) (t := t) rfl]
        exact hc
      · rw [inflightDom_some (s := _) (t := t) rfl]
        exact hd
      · intro htorn
        obtain ⟨h1, h2, h3⟩ := ht htorn
        rw [inflightNet_some hf] at h1
        rw [inflightCon_some hf] at h2
        rw [inflightDom_some hf] at h3
        refine ⟨?_, ?_, ?_⟩
        · rw [inflightNet_some (s := _) (t := t) rfl]
          exact h1
        · rw [inflightCon_some (s := _) (t := t) rfl]
          exact h2
        · rw [inflightDom_some (s := _) (t := t) rfl]
          exact h3
    | none =>
      dsimp only
      rw [inflightNet_none hf] at hn
      rw [inflightCon_none hf] at hc
      rw [inflightDom_none hf] at hd
      rw [hbn, hbc, hbd]
      exact ⟨rfl, rfl, rfl, hn, hc, hd, fun _ => ⟨rfl, rfl, rfl⟩⟩
  | stopEnd =>
    unfold sysStep
    dsimp only
    by_cases hcond : (s.stopping && s.inFlight.isNone) = true
    · rw [if_pos hcond]
      have hfnone : s.inFlight = none := by
        simp only [Bool.and_eq_true, Option.isNone_iff_eq_none] at hcond
        exact hcond.2
      rw [inflightNet_none hfnone] at hn
      rw [inflightCon_none hfnone] at hc
      rw [inflightDom_none hfnone] at hd
      refine ⟨rfl, rfl, rfl, ?_, ?_, ?_, ?_⟩
      · show s.netStore.flatten ++ inflightNet { s with torn := true, netBuf := [], conBuf := [], domBuf := [] } = s.netAcc
        simp only [inflightNet, hfnone]
        exact hn
      · show s.conStore.flatten ++ inflightCon { s with torn := true, netBuf := [], conBuf := [], domBuf := [] } = s.conAcc
        simp only [inflightCon, hfnone]
        exact hc
      · show s.domStore.flatten ++ inflightDom { s with torn := true, netBuf := [], conBuf := [], domBuf := [] } = s.domAcc
        simp only [inflightDom, hfnone]
        exact hd
      · intro _
        refine ⟨?_, ?_, ?_⟩ <;> simp only [inflightNet, inflightCon, inflightDom, hfnone]
    · rw [if_neg hcond]
      exact ⟨hbn, hbc, hbd, hn, hc, hd, ht⟩

theorem stopQuiesced_establish {α : Type} (s : FlushSys α)
    (hacc : SysAccounted s) (hif : s.inFlight = none) (htorn : s.torn = false) :
    StopQuiesced (sysStep s FlushAct.stopBegin) := by
  obtain ⟨hn, hc, hd⟩ := hacc
  rw [inflightNet_none hif, List.append_nil] at hn
  rw [inflightCon_none hif, List.append_nil] at hc
  rw [inflightDom_none hif, List.append_nil] at hd
  unfold sysStep flushCallStep
  dsimp only
  rw [hif]
  dsimp only
  refine ⟨rfl, rfl, rfl, ?_, ?_, ?_, ?_⟩
  · simp only [inflightNet]
    exact hn
  · simp only [inflightCon]
    exact hc
  · simp only [inflightDom]
    exact hd
  · intro h
    rw [htorn] at h
    exact (Bool.false_ne_true h).elim

theorem stopQuiesced_fold {α : Type} :
    ∀ (tr : List (FlushAct α)) (s : FlushSys α),
      (∀ a ∈ tr, isAppendAct a = false) → StopQuiesced s →
      StopQuiesced (tr.foldl sysStep s)
  | [], _, _, h => h
  | a :: rest, s, hfl, h =>
    stopQuiesced_fold rest (sysStep s a)
      (fun b hb => hfl b (List.mem_cons_of_mem _ hb))
      (stopQuiesced_step s a (hfl a (List.mem_cons_self _ _)) h)

theorem sysStep_stopBegin_timer {α : Type} (s : FlushSys α) :
    (sysStep s FlushAct.stopBegin).timer = false ∧
    (sysStep s FlushAct.stopBegin).stopping = true := by
  unfold sysStep flushCallStep
  dsimp only
  cases h : s.inFlight with
  | some t => exact ⟨rfl, rfl⟩
  | none => exact ⟨rfl, rfl⟩

def c6tr1 : List (FlushAct Nat) :=
  [FlushAct.appendNet 1, FlushAct.flushCall, FlushAct.writeDone]

def c6tr2 : List (FlushAct Nat) :=
  [FlushAct.writeDone, FlushAct.stopEnd]

/-- C6: corrected. The stop path disarms the flush timer and issues a final
flush call before teardown, but the no-loss guarantee needs two conditions the
original claim omits, each refuted in `c6_counterexample`: an event delivered
after the final flush has spliced the buffers is accepted into the freshly
emptied buffer and destroyed with it at teardown; and if a flush is already in
flight when the stop begins, the final flush call joins that in-flight
operation without splicing, so events buffered since that flush's splice are
likewise destroyed — even with no event delivered after the stop begins. The
amended guarantee: if no flush is in flight when the stop begins and no CDP
event is delivered after the stop begins, then the final flush runs with the
timer disarmed and the session marked stopping, and once teardown completes
every accepted event of every channel sits in its persisted batches. -/
theorem c6_final_flush_amended (α : Type) (tr₁ tr₂ : List (FlushAct α))
    (h₁ : ∀ a ∈ tr₁, isFlushAct a = true)
    (h₂ : ∀ a ∈ tr₂, isAppendAct a = false)
    (hif : (sysRun tr₁).inFlight = none)
    (htorn : (sysRun (tr₁ ++ FlushAct.stopBegin :: tr₂)).torn = true) :
    ((sysStep (sysRun tr₁) FlushAct.stopBegin).timer = false ∧
     (sysStep (sysRun tr₁) FlushAct.stopBegin).stopping = true) ∧
    ((sysRun (tr₁ ++ FlushAct.stopBegin :: tr₂)).netStore.flatten
        = (sysRun (tr₁ ++ FlushAct.stopBegin :: tr₂)).netAcc ∧
     (sysRun (tr₁ ++ FlushAct.stopBegin :: tr₂)).conStore.flatten
        = (sysRun (tr₁ ++ FlushAct.stopBegin :: tr₂)).conAcc ∧
     (sysRun (tr₁ ++ FlushAct.stopBegin :: tr₂)).domStore.flatten
        = (sysRun (tr₁ ++ FlushAct.stopBegin :: tr₂)).domAcc) := by
  have hacc0 : SysAccounted ({} : FlushSys α) := ⟨rfl, rfl, rfl⟩
  have hacc1 : SysAccounted (sysRun tr₁) := sysRun_accounted_aux tr₁ {} h₁ hacc0
  have htz : (sysRun tr₁).torn = false := sysRun_torn_aux tr₁ {} h₁
  have hq0 : StopQuiesced (sysStep (sysRun tr₁) FlushAct.stopBegin) :=
    stopQuiesced_establish _ hacc1 hif htz
  have hsplit : sysRun (tr₁ ++ FlushAct.stopBegin :: tr₂)
      = tr₂.foldl sysStep (sysStep (sysRun tr₁) FlushAct.stopBegin) := by
    unfold sysRun
    rw [List.foldl_append, List.foldl_cons]
  have hq : StopQuiesced (sysRun (tr₁ ++ FlushAct.stopBegin :: tr₂)) := by
    rw [hsplit]
    exact stopQuiesced_fold tr₂ _ h₂ hq0
  obtain ⟨-, -, -, hn, hc, hd, hinf⟩ := hq
  obtain ⟨hin, hic, hid⟩ := hinf htorn
  rw [hin, List.append_nil] at hn
  rw [hic, List.append_nil] at hc
  rw [hid, List.append_nil] at hd
  exact ⟨sysStep_stopBegin_timer _, hn, hc, hd⟩

/-- C6 counterexample, two loss modes. First trace: a network event delivered
after the final flush has spliced the buffers but before teardown completes is
accepted (it enters the accepted ledger) yet is absent from every persisted
batch once teardown finishes. Second trace: a flush is in flight when the stop
begins, so the stop's flush call joins it without splicing; an event accepted
before the stop begins (none is delivered afterwards) stays in the live buffer
and is destroyed at teardown, absent from every persisted batch. -/
theorem c6_counterexample :
    ((sysRun [FlushAct.appendNet 1, FlushAct.stopBegin, FlushAct.appendNet 2,
      FlushAct.writeDone, FlushAct.stopEnd] : FlushSys Nat).torn = true ∧
     (sysRun [FlushAct.appendNet 1, FlushAct.stopBegin, FlushAct.appendNet 2,
      FlushAct.writeDone, FlushAct.stopEnd] : FlushSys Nat).netAcc = [1, 2] ∧
     (sysRun [FlushAct.appendNet 1, FlushAct.stopBegin, FlushAct.appendNet 2,
      FlushAct.writeDone, FlushAct.stopEnd] : FlushSys Nat).netStore = [[1]]) ∧
    ((sysRun [FlushAct.appendNet 1, FlushAct.flushCall, FlushAct.appendNet 2,
      FlushAct.stopBegin, FlushAct.writeDone, FlushAct.stopEnd] :
        FlushSys Nat).torn = true ∧
     (sysRun [FlushAct.appendNet 1, FlushAct.flushCall, FlushAct.appendNet 2,
      FlushAct.stopBegin, FlushAct.writeDone, FlushAct.stopEnd] :
        FlushSys Nat).netAcc = [1, 2] ∧
     (sysRun [FlushAct.appendNet 1, FlushAct.flushCall, FlushAct.appendNet 2,
      FlushAct.stopBegin, FlushAct.writeDone, FlushAct.stopEnd] :
        FlushSys Nat).netStore = [[1]]) := by
  decide

theorem c6_witness :
    ((sysStep (sysRun c6tr1) FlushAct.stopBegin).timer = false ∧
     (sysStep (sysRun c6tr1) FlushAct.stopBegin).stopping = true) ∧
    ((sysRun (c6tr1 ++ FlushAct.stopBegin :: c6tr2)).netStore.flatten
        = (sysRun (c6tr1 ++ FlushAct.stopBegin :: c6tr2)).netAcc ∧
     (sysRun (c6tr1 ++ FlushAct.stopBegin :: c6tr2)).conStore.flatten
        = (sysRun (c6tr1 ++ FlushAct.stopBegin :: c6tr2)).conAcc ∧
     (sysRun (c6tr1 ++ FlushAct.stopBegin :: c6tr2)).domStore.flatten
        = (sysRun (c6tr1 ++ FlushAct.stopBegin :: c6tr2)).domAcc) :=
  c6_final_flush_amended Nat c6tr1 c6tr2 (by decide) (by decide) (by decide)
    (by decide)

/-- The character for a decimal digit (`${i}` renders indices in decimal). -/
def digitChar (d : Nat) : Char :=
  match d with
  | 0 => '0' | 1 => '1' | 2 => '2' | 3 => '3' | 4 => '4'
  | 5 => '5' | 6 => '6' | 7 => '7' | 8 => '8' | _ => '9'

/-- Decimal rendering of a natural number, fuel-structured so that it
computes by reduction; `natDecChars` supplies sufficient fuel. -/
def natDecCharsAux : Nat → Nat → List Char
  | 0, _ => []
  | f + 1, n =>
    if n < 10 then [digitChar n]
    else natDecCharsAux f (n / 10) ++ [digitChar (n % 10)]

def natDecChars (n : Nat) : List Char :=
  natDecCharsAux (n + 1) n

/-- JS template-literal rendering of a batch index: decimal digits. -/
def natDecStr (n : Nat) : String :=
  ⟨natDecChars n⟩

/-- Whether a character is an ASCII decimal digit (the characters
`parseInt(s, 10)` consumes). -/
def isDigitB (c : Char) : Bool :=
  decide (48 ≤ c.toNat) && decide (c.toNat ≤ 57)

/-- The leading-digit parse of `parseInt(s, 10)`: consume decimal digits from
the front, stop at the first non-digit. -/
def parseLead : List Char → Nat → Nat
  | [], acc => acc
  | c :: cs, acc =>
    if isDigitB c then parseLead cs (10 * acc + (c.toNat - 48)) else acc

/-- `parseInt(s, 10)` on the strings this development feeds it (non-empty
digit strings); the NaN outcome on a digitless string is modelled as 0. -/
def jsParseIntNat (s : String) : Nat :=
  parseLead s.data 0

theorem parseLead_cons_digit (d : Nat) (h : d < 10) (cs : List Char) (acc : Nat) :
    parseLead (digitChar d :: cs) acc = parseLead cs (10 * acc + d) := by
  interval_cases d <;> rfl

theorem natDecCharsAux_ne_nil (fuel : Nat) :
    ∀ n, n < fuel → natDecCharsAux fuel n ≠ [] := by
  induction fuel with
  | zero => intro n h; omega
  | succ f ih =>
    intro n _
    unfold natDecCharsAux
    by_cases h10 : n < 10
    · rw [if_pos h10]
      simp
    · rw [if_neg h10]
      simp

theorem parseLead_natDecCharsAux (fuel : Nat) :
    ∀ n acc (rest : List Char), n < fuel →
      parseLead (natDecCharsAux fuel n ++ rest) acc
        = parseLead rest (acc * 10 ^ (natDecCharsAux fuel n).length + n) := by
  induction fuel with
  | zero => intro n _ _ h; omega
  | succ f ih =>
    intro n acc rest hn
    have hunf : natDecCharsAux (f + 1) n
        = if n < 10 then [digitChar n]
          else natDecCharsAux f (n / 10) ++ [digitChar (n % 10)] := rfl
    by_cases h10 : n < 10
    · rw [hunf, if_pos h10, List.singleton_append]
      rw [parseLead_cons_digit n h10 rest acc]
      have : acc * 10 ^ [digitChar n].length + n = 10 * acc + n := by
        simp only [List.length_singleton, pow_one]
        ring
      rw [this]
    · have hmod : n % 10 < 10 := Nat.mod_lt _ (by omega)
      rw [hunf, if_neg h10]
      rw [List.append_assoc, List.singleton_append]
      have hfit : n / 10 < f := by
        have h1 : n / 10 < n := Nat.div_lt_self (by omega) (by omega)
        omega
      rw [ih (n / 10) acc (digitChar (n % 10) :: rest) hfit]
      rw [parseLead_cons_digit (n % 10) hmod rest _]
      have hlen : ((natDecCharsAux f (n / 10)) ++ [digitChar (n % 10)]).length
          = (natDecCharsAux f (n / 10)).length + 1 := by
        simp
      rw [hlen]
      have : 10 * (acc * 10 ^ (natDecCharsAux f (n / 10)).length + n / 10) + n % 10
          = acc * 10 ^ ((natDecCharsAux f (n / 10)).length + 1)
            + (10 * (n / 10) + n % 10) := by
        rw [pow_succ]
        ring
      rw [this, Nat.div_add_mod]

theorem jsParseIntNat_natDecStr (n : Nat) : jsParseIntNat (natDecStr n) = n := by
  show parseLead (natDecChars n) 0 = n
  have h := parseLead_natDecCharsAux (n + 1) n 0 [] (Nat.lt_succ_self n)
  rw [List.append_nil] at h
  unfold natDecChars
  rw [h]
  show 0 * 10 ^ (natDecCharsAux (n + 1) n).length + n = n
  ring

theorem natDecStr_length_pos (n : Nat) : (natDecStr n).length ≠ 0 := by
  show (natDecChars n).length ≠ 0
  have h := natDecCharsAux_ne_nil (n + 1) n (Nat.lt_succ_self n)
  intro hc
  exact h (List.length_eq_zero.mp hc)

/-- A storage key, modelled as its list of colon-separated segments (the key
schema is segment-structured and no segment written by the store contains a
colon, so `split(':')` recovers exactly these segments and joining them with
':' recovers the string key). -/
def StorageKey : Type := List String

instance : DecidableEq StorageKey :=
  inferInstanceAs (DecidableEq (List String))

/-- The IndexedDB contents relevant to network batches: an association list
from keys to stored batch values. -/
def NetKVStore : Type := List (StorageKey × List NetworkEvent)

/-- The key written for a network batch: sessionId, "network", "batch" and the
decimal batch index — the segments of the string
key sessionId:network:batch:index. -/
def networkBatchKey (sessionId : String) (batchIndex : Nat) : StorageKey :=
  [sessionId, "network", "batch", natDecStr batchIndex]

/-- storeNetworkEventBatch: set(key, events) under the batch key. -/
def storeNetworkEventBatch (store : NetKVStore) (sessionId : String)
    (batchIndex : Nat) (events : List NetworkEvent) : NetKVStore :=
  mset store (networkBatchKey sessionId batchIndex) events

/-- The key filter of getNetworkEvents: the joined key starts with the string
sessionId:network:batch: — in segment terms, the first three segments
are sessionId, "network", "batch" and a fourth segment exists. -/
def isBatchKeyFor (sessionId : String) (k : StorageKey) : Bool :=
  decide (List.take 3 k = [sessionId, "network", "batch"]) && decide (3 < List.length k)

/-- split(':').pop() || '0': the last segment, with the JS || fallback
turning a missing or empty last segment into "0". -/
def popOr0 (k : StorageKey) : String :=
  match List.getLast? k with
  | some s => if s.length = 0 then "0" else s
  | none => "0"

/-- The numeric index a key is sorted by: parseInt of its last segment. -/
def keyIdx (k : StorageKey) : Nat :=
  jsParseIntNat (popOr0 k)

/-- One insertion step of a stable comparator sort: place the new element
before the first strictly greater one, after earlier equal ones. -/
def insLt {α : Type} (f : α → Nat) (a : α) : List α → List α
  | [] => [a]
  | b :: l => if f a < f b then a :: b :: l else b :: insLt f a l

/-- Array.prototype.sort with the comparator (a, b) => f(a) - f(b): a stable
sort, ascending in the measure f. Modelled as left-to-right stable
insertion, which realises exactly the sorted-and-stable result the
comparator contract specifies. -/
def jsSortNum {α : Type} (f : α → Nat) (l : List α) : List α :=
  l.foldl (fun acc a => insLt f a acc) []

/-- getNetworkEvents: enumerate the keys, keep those with the session's
network-batch key shape, sort them numerically by their final
index segment, and concatenate the stored batches in that order (a missing
batch contributes nothing). keys() delivers the stored keys in a
backend-determined order, so the enumeration is a parameter here; callers
constrain it to a permutation of the stored keys. -/
def getNetworkEvents (allKeys : List StorageKey) (store : NetKVStore)
    (sessionId : String) : List NetworkEvent :=
  (jsSortNum keyIdx (allKeys.filter (fun k => isBatchKeyFor sessionId k))).flatMap
    (fun k => (mget store k).getD [])

/-- The store produced by writing batches 0 .. n-1 in order with
storeNetworkEventBatch, starting from an empty store. -/
def storeAllBatches (sessionId : String) (batches : Nat → List NetworkEvent)
    (n : Nat) : NetKVStore :=
  (List.range n).foldl
    (fun st i => storeNetworkEventBatch st sessionId i (batches i)) []

theorem keyIdx_networkBatchKey (sessionId : String) (i : Nat) :
    keyIdx (networkBatchKey sessionId i) = i := by
  unfold keyIdx popOr0 networkBatchKey
  have hlast : List.getLast? [sessionId, "network", "batch", natDecStr i]
      = some (natDecStr i) := rfl
  rw [hlast]
  dsimp only
  rw [if_neg (natDecStr_length_pos i)]
  exact jsParseIntNat_natDecStr i

theorem networkBatchKey_inj (sessionId : String) {i j : Nat}
    (h : networkBatchKey sessionId i = networkBatchKey sessionId j) : i = j := by
  have := congrArg keyIdx h
  rwa [keyIdx_networkBatchKey, keyIdx_networkBatchKey] at this

theorem isBatchKeyFor_networkBatchKey (sessionId : String) (i : Nat) :
    isBatchKeyFor sessionId (networkBatchKey sessionId i) = true := by
  unfold isBatchKeyFor networkBatchKey
  simp

theorem insLt_perm {α : Type} (f : α → Nat) (a : α) :
    ∀ l : List α, (insLt f a l).Perm (a :: l)
  | [] => List.Perm.refl _
  | b :: l => by
    unfold insLt
    by_cases h : f a < f b
    · rw [if_pos h]
    · rw [if_neg h]
      exact ((insLt_perm f a l).cons b).trans (List.Perm.swap a b l)

theorem jsSortNum_foldl_perm {α : Type} (f : α → Nat) :
    ∀ (l acc : List α), (l.foldl (fun acc a => insLt f a acc) acc).Perm (acc ++ l)
  | [], acc => by simp
  | a :: l, acc => by
    rw [List.foldl_cons]
    refine (jsSortNum_foldl_perm f l (insLt f a acc)).trans ?_
    refine (((insLt_perm f a acc).append_right l).trans ?_)
    rw [List.cons_append]
    exact (List.perm_middle).symm

theorem jsSortNum_perm {α : Type} (f : α → Nat) (l : List α) :
    (jsSortNum f l).Perm l := by
  have h := jsSortNum_foldl_perm f l []
  rwa [List.nil_append] at h

theorem insLt_pairwise {α : Type} (f : α → Nat) (a : α) :
    ∀ l : List α, l.Pairwise (fun x y => f x ≤ f y) →
      (insLt f a l).Pairwise (fun x y => f x ≤ f y)
  | [], _ => List.pairwise_cons.mpr ⟨by simp, List.Pairwise.nil⟩
  | b :: l, h => by
    obtain ⟨hb, hl⟩ := List.pairwise_cons.mp h
    unfold insLt
    by_cases hab : f a < f b
    · rw [if_pos hab]
      refine List.pairwise_cons.mpr ⟨?_, h⟩
      intro c hc
      rcases List.mem_cons.mp hc with he | hm
      · exact he ▸ Nat.le_of_lt hab
      · exact Nat.le_of_lt (Nat.lt_of_lt_of_le hab (hb c hm))
    · rw [if_neg hab]
      refine List.pairwise_cons.mpr ⟨?_, insLt_pairwise f a l hl⟩
      intro c hc
      have hc2 : c ∈ a :: l := (insLt_perm f a l).mem_iff.mp hc
      rcases List.mem_cons.mp hc2 with he | hm
      · exact he ▸ Nat.le_of_not_lt hab
      · exact hb c hm

theorem jsSortNum_foldl_pairwise {α : Type} (f : α → Nat) :
    ∀ (l acc : List α), acc.Pairwise (fun x y => f x ≤ f y) →
      (l.foldl (fun acc a => insLt f a acc) acc).Pairwise (fun x y => f x ≤ f y)
  | [], _, h => h
  | a :: l, acc, h => by
    rw [List.foldl_cons]
    exact jsSortNum_foldl_pairwise f l (insLt f a acc) (insLt_pairwise f a acc h)

theorem jsSortNum_pairwise {α : Type} (f : α → Nat) (l : List α) :
    (jsSortNum f l).Pairwise (fun x y => f x ≤ f y) :=
  jsSortNum_foldl_pairwise f l [] List.Pairwise.nil

theorem pairwise_lt_of_le_nodup {α : Type} (f : α → Nat) :
    ∀ l : List α, l.Pairwise (fun x y => f x ≤ f y) → (l.map f).Nodup →
      l.Pairwise (fun x y => f x < f y)
  | [], _, _ => List.Pairwise.nil
  | a :: l, hle, hnd => by
    rw [List.map_cons, List.nodup_cons] at hnd
    obtain ⟨hna, hndl⟩ := hnd
    obtain ⟨ha, hl⟩ := List.pairwise_cons.mp hle
    refine List.pairwise_cons.mpr ⟨?_, pairwise_lt_of_le_nodup f l hl hndl⟩
    intro b hb
    refine Nat.lt_of_le_of_ne (ha b hb) ?_
    intro he
    exact hna (he ▸ List.mem_map_of_mem f hb)

theorem mset_append_of_missing {κ α : Type} [DecidableEq κ] :
    ∀ (m : List (κ × α)) (k : κ) (v : α), k ∉ m.map Prod.fst →
      mset m k v = m ++ [(k, v)]
  | [], _, _, _ => rfl
  | (k', v') :: rest, k, v, h => by
    have hne : k' ≠ k := by
      intro he
      exact h (by simp [he])
    unfold mset
    rw [if_neg hne]
    rw [mset_append_of_missing rest k v (fun hm => h (List.mem_cons_of_mem _ hm))]
    rfl

theorem storeAllBatches_eq (sessionId : String) (batches : Nat → List NetworkEvent) :
    ∀ n, storeAllBatches sessionId batches n
      = (List.range n).map (fun i => (networkBatchKey sessionId i, batches i))
  | 0 => rfl
  | n + 1 => by
    unfold storeAllBatches
    rw [List.range_succ, List.foldl_append, List.foldl_cons, List.foldl_nil]
    have hrec : (List.range n).foldl
        (fun st i => storeNetworkEventBatch st sessionId i (batches i)) []
        = (List.range n).map (fun i => (networkBatchKey sessionId i, batches i)) :=
      storeAllBatches_eq sessionId batches n
    rw [hrec]
    unfold storeNetworkEventBatch
    have hmiss : networkBatchKey sessionId n
        ∉ ((List.range n).map
            (fun i => (networkBatchKey sessionId i, batches i))).map Prod.fst := by
      rw [List.map_map]
      intro hm
      obtain ⟨i, hi, he⟩ := List.mem_map.mp hm
      have : i = n := networkBatchKey_inj sessionId he
      rw [List.mem_range] at hi
      omega
    rw [mset_append_of_missing _ _ _ hmiss]
    rw [List.map_append]
    rfl

/-- C10: confirmed. Writing batches 0 .. n-1 with storeNetworkEventBatch and
reading them back with getNetworkEvents returns exactly the concatenation of
the batches in batch order, whatever order the key enumeration delivers the
stored keys in — the read sorts keys by the numeric value of their final
index segment, so multi-digit indices (10, 11, ...) land after 2 .. 9 even
when the enumeration is lexicographic. -/
theorem c10_storage_roundtrip (sessionId : String) (n : Nat)
    (batches : Nat → List NetworkEvent) (allKeys : List StorageKey)
    (hperm : allKeys.Perm ((List.range n).map (networkBatchKey sessionId))) :
    getNetworkEvents allKeys (storeAllBatches sessionId batches n) sessionId
      = (List.range n).flatMap batches := by
  have hall : ∀ k ∈ allKeys, isBatchKeyFor sessionId k = true := by
    intro k hk
    have hm : k ∈ (List.range n).map (networkBatchKey sessionId) :=
      hperm.mem_iff.mp hk
    obtain ⟨i, -, he⟩ := List.mem_map.mp hm
    rw [← he]
    exact isBatchKeyFor_networkBatchKey sessionId i
  have hfilter : allKeys.filter (fun k => isBatchKeyFor sessionId k) = allKeys :=
    List.filter_eq_self.mpr hall
  have hSperm : (jsSortNum keyIdx allKeys).Perm
      ((List.range n).map (networkBatchKey sessionId)) :=
    (jsSortNum_perm keyIdx allKeys).trans hperm
  have hmapidx : ((List.range n).map (networkBatchKey sessionId)).map keyIdx
      = List.range n := by
    rw [List.map_map]
    have : ∀ i ∈ List.range n, (keyIdx ∘ networkBatchKey sessionId) i = id i := by
      intro i _
      exact keyIdx_networkBatchKey sessionId i
    rw [List.map_congr_left this, List.map_id]
  have hnodup : ((jsSortNum keyIdx allKeys).map keyIdx).Nodup := by
    have hp : ((jsSortNum keyIdx allKeys).map keyIdx).Perm
        (((List.range n).map (networkBatchKey sessionId)).map keyIdx) :=
      hSperm.map keyIdx
    rw [hmapidx] at hp
    exact hp.nodup_iff.mpr (List.nodup_range n)
  have hSlt : (jsSortNum keyIdx allKeys).Pairwise
      (fun x y => keyIdx x < keyIdx y) := by
    refine pairwise_lt_of_le_nodup keyIdx _ ?_ hnodup
    have h := jsSortNum_pairwise keyIdx
        (allKeys.filter (fun k => isBatchKeyFor sessionId k))
    rwa [hfilter] at h
  have htlt : ((List.range n).map (networkBatchKey sessionId)).Pairwise
      (fun x y => keyIdx x < keyIdx y) := by
    rw [List.pairwise_map]
    refine List.Pairwise.imp ?_ (List.pairwise_lt_range n)
    intro i j h
    rw [keyIdx_networkBatchKey, keyIdx_networkBatchKey]
    exact h
  letI : IsAntisymm StorageKey (fun x y => keyIdx x < keyIdx y) :=
    ⟨fun a b h1 h2 => absurd h2 (Nat.lt_asymm h1)⟩
  have hS : jsSortNum keyIdx allKeys
      = (List.range n).map (networkBatchKey sessionId) :=
    List.eq_of_perm_of_sorted hSperm hSlt htlt
  unfold getNetworkEvents
  rw [hfilter, hS]
  rw [List.flatMap_map]
  refine flatMap_congr_mem ?_
  intro i hi
  rw [storeAllBatches_eq]
  have hmem : (networkBatchKey sessionId i, batches i)
      ∈ (List.range n).map (fun j => (networkBatchKey sessionId j, batches j)) :=
    List.mem_map_of_mem _ hi
  have hnd : (((List.range n).map
      (fun j => (networkBatchKey sessionId j, batches j))).map Prod.fst).Nodup := by
    rw [List.map_map]
    exact (List.nodup_range n).map (fun a b h => networkBatchKey_inj sessionId h)
  rw [mget_of_mem_of_nodup hnd hmem]
  rfl

def c10evt (i : Nat) : NetworkEvent :=
  { requestId := natDecStr i, url := "", method := "GET", headers := [],
    postData := none, timestamp := 0, wallTime := 0, videoTimestamp := 0,
    status := 200, statusText := "" }

/-- Twelve batch keys as a lexicographic enumeration would deliver them:
indices 10 and 11 sort between 1 and 2 as strings. -/
def c10keys : List StorageKey :=
  [["s", "network", "batch", "0"], ["s", "network", "batch", "1"],
   ["s", "network", "batch", "10"], ["s", "network", "batch", "11"],
   ["s", "network", "batch", "2"], ["s", "network", "batch", "3"],
   ["s", "network", "batch", "4"], ["s", "network", "batch", "5"],
   ["s", "network", "batch", "6"], ["s", "network", "batch", "7"],
   ["s", "network", "batch", "8"], ["s", "network", "batch", "9"]]

theorem c10_witness :
    c10keys.Perm ((List.range 12).map (networkBatchKey "s")) ∧
    getNetworkEvents c10keys
        (storeAllBatches "s" (fun i => [c10evt i]) 12) "s"
      = (List.range 12).flatMap (fun i => [c10evt i]) :=
  ⟨by decide, c10_storage_roundtrip "s" 12 (fun i => [c10evt i]) c10keys (by decide)⟩
